import Mathlib

/-! Bme280 driver: a shallow embedding of `src/src/Bme280.cpp`.

Conventions of the embedding.

* Every C integer is a Lean `Int` (bytes and unsigned fields are `Nat`); the
  result of each signed 32-bit / 64-bit operation is reduced with `wrap32` /
  `wrap64` (two's complement wrap-around).  `int` is 32 bits wide, as on the
  targets whose `TwoWire` offers `status()`; `>>` on a signed value is the
  arithmetic shift.
* The unions `compTable_t` / `compTableH_t` are their byte arrays (`List Nat`);
  the `var` view reads the fields back from the bytes, little-endian, with
  every `int16_t` on an even offset (so `sizeof(compHumid_t)` is 10).
* The three `double` outputs are kept as the integer numerators the code
  divides by `100.0`, `256.0` and `1024.0`.
* The bus (`TwoWire`, from the external `Wire.h`) is a parameter: an arbitrary
  deterministic responder together with the list of the calls issued so far.
-/

/-! ## Machine arithmetic -/

/-- Two's complement reduction to `int32_t`. -/
def wrap32 (x : Int) : Int := (x + 2147483648) % 4294967296 - 2147483648

/-- Two's complement reduction to `int64_t`. -/
def wrap64 (x : Int) : Int :=
  (x + 9223372036854775808) % 18446744073709551616 - 9223372036854775808

def add32 (a b : Int) : Int := wrap32 (a + b)
def sub32 (a b : Int) : Int := wrap32 (a - b)
def mul32 (a b : Int) : Int := wrap32 (a * b)
def shl32 (a : Int) (n : Nat) : Int := wrap32 (a * 2 ^ n)

def add64 (a b : Int) : Int := wrap64 (a + b)
def sub64 (a b : Int) : Int := wrap64 (a - b)
def mul64 (a b : Int) : Int := wrap64 (a * b)
def shl64 (a : Int) (n : Nat) : Int := wrap64 (a * 2 ^ n)

/-- C `/` on `int64_t`: truncation toward zero; `none` is the division by zero. -/
def div64 (a b : Int) : Option Int := if b = 0 then none else some (wrap64 (Int.tdiv a b))

/-- Arithmetic shift right of a signed value. -/
def asr (a : Int) (n : Nat) : Int := a >>> n

/-- Value of a `uint16_t` stored little-endian in two bytes. -/
def u16le (lo hi : Nat) : Nat := lo % 256 + 256 * (hi % 256)

/-- Value of an `int16_t` stored little-endian in two bytes. -/
def s16le (lo hi : Nat) : Int :=
  if u16le lo hi < 32768 then (u16le lo hi : Int) else (u16le lo hi : Int) - 65536

/-- The cast `(int8_t)` of a byte. -/
def s8 (b : Nat) : Int := if b % 256 < 128 then ((b % 256 : Nat) : Int) else ((b % 256 : Nat) : Int) - 256

/-- Low byte of a stored `int16_t`. -/
def lo16 (v : Int) : Nat := (v % 256).toNat

/-- High byte of a stored `int16_t`. -/
def hi16 (v : Int) : Nat := ((v % 65536) / 256).toNat

/-! ## Constants of `Bme280.hpp` -/

def BME280_ADDR : Nat := 0x76
def BME280_DEV_ID : Nat := 0x60
def BME280_REG_COMP_TABLE : Nat := 0x88
def BME280_REG_COMP_H1 : Nat := 0xA1
def BME280_REG_COMP_H2_MSB : Nat := 0xE1
def BME280_REG_ID : Nat := 0xD0
def BME280_REG_RESET : Nat := 0xE0
def BME280_REG_CTRL_HUMI : Nat := 0xF2
def BME280_REG_STATUS : Nat := 0xF3
def BME280_REG_CTRL_MEAS : Nat := 0xF4
def BME280_REG_CONFIG : Nat := 0xF5
def BME280_REG_PRES_MSB : Nat := 0xF7

def BME280_ERROR_NONE : Nat := 0
def BME280_ERROR_NO_ANSWER : Nat := 0x10
def BME280_ERROR_NO_ID : Nat := 0x20
def BME280_ERROR_NO_RESET : Nat := 0x30
def BME280_ERROR_NO_TABLE : Nat := 0x40
def BME280_ERROR_NO_TABLE_HUMIDITY : Nat := 0x80
def BME280_ERROR_I2C_READ : Nat := 1
def BME280_ERROR_I2C_WRITE : Nat := 2

/-- Size of `compData_t`: twelve 16-bit fields. -/
def sizeofCompData : Nat := 24

/-- Size of `compHumid_t`: H2 at 0, H3 at 2, H4 at 4, H5 at 6, H6 at 8, padded to 10. -/
def sizeofCompHumid : Nat := 10

/-! ## The coefficient unions -/

/-- Byte `i` of a buffer (`data[i]`). -/
def byteAt (data : List Nat) (i : Nat) : Nat := data.getD i 0

/-- The struct `compData_t`. -/
structure compData_t where
  T1 : Nat
  T2 : Int
  T3 : Int
  P1 : Nat
  P2 : Int
  P3 : Int
  P4 : Int
  P5 : Int
  P6 : Int
  P7 : Int
  P8 : Int
  P9 : Int
  deriving DecidableEq

/-- The struct `compHumid_t`. -/
structure compHumid_t where
  H2 : Int
  H3 : Nat
  H4 : Int
  H5 : Int
  H6 : Int
  deriving DecidableEq

/-- The `var` member of `compTable_t` seen through its `data` bytes. -/
def compTable_var (data : List Nat) : compData_t :=
  { T1 := u16le (byteAt data 0) (byteAt data 1)
    T2 := s16le (byteAt data 2) (byteAt data 3)
    T3 := s16le (byteAt data 4) (byteAt data 5)
    P1 := u16le (byteAt data 6) (byteAt data 7)
    P2 := s16le (byteAt data 8) (byteAt data 9)
    P3 := s16le (byteAt data 10) (byteAt data 11)
    P4 := s16le (byteAt data 12) (byteAt data 13)
    P5 := s16le (byteAt data 14) (byteAt data 15)
    P6 := s16le (byteAt data 16) (byteAt data 17)
    P7 := s16le (byteAt data 18) (byteAt data 19)
    P8 := s16le (byteAt data 20) (byteAt data 21)
    P9 := s16le (byteAt data 22) (byteAt data 23) }

/-- The `var` member of `compTableH_t` seen through its `data` bytes. -/
def compTableH_var (data : List Nat) : compHumid_t :=
  { H2 := s16le (byteAt data 0) (byteAt data 1)
    H3 := byteAt data 2 % 256
    H4 := s16le (byteAt data 4) (byteAt data 5)
    H5 := s16le (byteAt data 6) (byteAt data 7)
    H6 := s8 (byteAt data 8) }

/-- Assignment to `compH.var.H6`: the byte at offset 8. -/
def setH6 (data : List Nat) (v : Int) : List Nat := data.set 8 (v % 256).toNat

/-- Assignment to `compH.var.H4`: the bytes at offsets 4 and 5. -/
def setH4 (data : List Nat) (v : Int) : List Nat := (data.set 4 (lo16 v)).set 5 (hi16 v)

/-- Assignment to `compH.var.H5`: the bytes at offsets 6 and 7. -/
def setH5 (data : List Nat) (v : Int) : List Nat := (data.set 6 (lo16 v)).set 7 (hi16 v)

/-! ## The sample converter: the integer part of `Bme280::read` -/

/-- Line 141: `(data[0] << 16 | data[1] << 8 | data[2]) >> 4`. -/
def rawPressure (data : List Nat) : Nat :=
  (byteAt data 0 <<< 16 ||| byteAt data 1 <<< 8 ||| byteAt data 2) >>> 4

/-- Line 142: `(data[3] << 16 | data[4] << 8 | data[5]) >> 4`. -/
def rawTemperature (data : List Nat) : Nat :=
  (byteAt data 3 <<< 16 ||| byteAt data 4 <<< 8 ||| byteAt data 5) >>> 4

/-- Line 143: `data[6] << 8 | data[7]`, stored in a `uint16_t`. -/
def rawHumid (data : List Nat) : Nat :=
  (byteAt data 6 <<< 8 ||| byteAt data 7) % 65536

/-- Line 151: `var1` of the temperature stage. -/
def tempVar1 (c : compData_t) (temp : Int) : Int :=
  asr (mul32 (sub32 (asr temp 3) (shl32 c.T1 1)) c.T2) 11

/-- Line 152: `var2` of the temperature stage. -/
def tempVar2 (c : compData_t) (temp : Int) : Int :=
  asr (mul32 (asr (mul32 (sub32 (asr temp 4) c.T1) (sub32 (asr temp 4) c.T1)) 12) c.T3) 14

/-- Line 153: `t_fine = var1 + var2`. -/
def t_fine (c : compData_t) (temp : Int) : Int :=
  add32 (tempVar1 c temp) (tempVar2 c temp)

/-- Line 154: `(t_fine * 5 + 128) >> 8`, the numerator divided by `100.0`. -/
def temperatureNum (tf : Int) : Int := asr (add32 (mul32 tf 5) 128) 8

/-- Lines 157-160: the final `varl2` before the branch. -/
def presVarl2 (c : compData_t) (tf : Int) : Int :=
  let varl1 := sub64 tf 128000
  let varl2 := mul64 (mul64 varl1 varl1) c.P6
  let varl2 := add64 varl2 (shl64 (mul64 varl1 c.P5) 17)
  add64 varl2 (shl64 c.P4 35)

/-- Line 161: `varl1` before the multiplication by P1. -/
def presV1 (c : compData_t) (tf : Int) : Int :=
  let varl1 := sub64 tf 128000
  add64 (asr (mul64 (mul64 varl1 varl1) c.P3) 8) (shl64 (mul64 varl1 c.P2) 12)

/-- Line 162: `((1 << 47) + varl1) * P1 >> 33`, the divisor of line 167. -/
def presDenominator (c : compData_t) (tf : Int) : Int :=
  asr (mul64 (add64 (shl64 1 47) (presV1 c tf)) c.P1) 33

/-- Lines 166-170: the `else` branch, `p` as divided by `256.0`. -/
def presElse (c : compData_t) (tf : Int) (pres : Int) : Option Int :=
  let varl2 := presVarl2 c tf
  let varl1 := presDenominator c tf
  let p := sub32 1048576 pres
  (div64 (mul64 (sub64 (shl64 p 31) varl2) 3125) varl1).map fun p =>
    let varl1 := asr (mul64 (mul64 c.P9 (asr p 13)) (asr p 13)) 25
    let varl2 := asr (mul64 c.P8 p) 19
    add64 (asr (add64 (add64 p varl1) varl2) 8) (shl64 c.P7 4)

/-- Lines 163-172: the pressure numerator; `some 0` stands for the assignment `0.0`. -/
def pressureNum (c : compData_t) (tf : Int) (pres : Int) : Option Int :=
  if presDenominator c tf = 0 then some 0 else presElse c tf pres

/-- Lines 175-177: `var1` of the humidity stage right before the two clamps. -/
def humVar1 (h : compHumid_t) (H1 : Nat) (tf : Int) (humi : Int) : Int :=
  let var1 := sub32 tf 76800
  let var1 :=
    mul32
      (asr (add32 (sub32 (sub32 (shl32 humi 14) (shl32 h.H4 20)) (mul32 h.H5 var1)) 16384) 15)
      (asr (add32 (mul32 (add32 (asr (mul32 (asr (mul32 var1 h.H6) 10)
        (add32 (asr (mul32 var1 h.H3) 11) 32768)) 10) 2097152) h.H2) 8192) 14)
  sub32 var1 (asr (mul32 (asr (mul32 (asr var1 15) (asr var1 15)) 7) H1) 4)

/-- Lines 178-179: the two clamps. -/
def humClamp (var1 : Int) : Int :=
  let var1 := if var1 < 0 then 0 else var1
  if var1 > 419430400 then 419430400 else var1

/-- Line 180: `(uint32_t)(var1 >> 12)`, the numerator divided by `1024.0`. -/
def humidityNum (var1 : Int) : Nat := ((asr (humClamp var1) 12) % 4294967296).toNat

/-- The value `n / 1024.0`; exact, since `n` is a `uint32_t` and 1024 a power of two. -/
def humidityValue (n : Nat) : ℚ := (n : ℚ) / 1024

/-! ## The bus -/

/-- The calls the driver makes on its `TwoWire` object. -/
inductive WireCall where
  | status
  | beginTransmission (addr : Nat)
  | write (b : Nat)
  | endTransmission
  | requestFrom (addr : Nat) (len : Nat)
  | read
  deriving DecidableEq

/-- The bus: `respond` gives the value a call returns after the calls in
`log` (oldest first); a call that returns nothing ignores it. -/
structure TwoWire where
  respond : List WireCall → WireCall → Nat
  log : List WireCall

/-- Issue one call: its return value and the bus afterwards. -/
def TwoWire.call (w : TwoWire) (c : WireCall) : Nat × TwoWire :=
  (w.respond w.log c, { w with log := w.log ++ [c] })

/-! ## The session object -/

/-- The data members of class `Bme280` (`myWire` is passed alongside). -/
structure Bme280 where
  address : Nat
  compensation : List Nat
  H1 : Nat
  compH : List Nat
  error : Nat
  temperature : Int
  pressure : Int
  humidity : Nat

namespace Bme280

/-- Lines 203-221, `Bme280::readByte`: `some b` is `true` with `*data = b`. -/
def readByte (s : Bme280) (w : TwoWire) (reg : Nat) : Option Nat × Bme280 × TwoWire :=
  let w := (w.call (.beginTransmission s.address)).2
  let r := w.call (.write reg)
  if r.1 ≠ 1 then (none, { s with error := BME280_ERROR_I2C_WRITE }, r.2) else
  let w := (r.2.call .endTransmission).2
  let w := (w.call (.beginTransmission s.address)).2
  let r := w.call (.requestFrom s.address 1)
  let count := r.1 % 256
  let w := (r.2.call .endTransmission).2
  if count ≠ 1 then (none, { s with error := BME280_ERROR_I2C_READ }, w) else
  let r := w.call .read
  (some (r.1 % 256), s, r.2)

/-- Lines 223-237, `Bme280::sendByte`. -/
def sendByte (s : Bme280) (w : TwoWire) (reg data : Nat) : Bool × Bme280 × TwoWire :=
  let w := (w.call (.beginTransmission s.address)).2
  let r := w.call (.write reg)
  let s := if r.1 ≠ 1 then { s with error := BME280_ERROR_I2C_WRITE } else s
  let r := r.2.call (.write data)
  let s := if r.1 ≠ 1 then { s with error := BME280_ERROR_I2C_WRITE } else s
  let w := (r.2.call .endTransmission).2
  if s.error = BME280_ERROR_I2C_WRITE then (false, s, w) else (true, s, w)

/-- Lines 256-258: the copy loop with `n` iterations left, `data[i] = read()`. -/
def readLoop (w : TwoWire) (data : List Nat) (i : Nat) : Nat → List Nat × TwoWire
  | 0 => (data, w)
  | n + 1 =>
    let r := w.call .read
    readLoop r.2 (data.set i (r.1 % 256)) (i + 1) n

/-- Lines 239-260, `Bme280::readTable`; the second component is the caller's buffer. -/
def readTable (s : Bme280) (w : TwoWire) (reg len : Nat) (data : List Nat) :
    Bool × List Nat × Bme280 × TwoWire :=
  let w := (w.call (.beginTransmission s.address)).2
  let r := w.call (.write reg)
  let s := if r.1 ≠ 1 then { s with error := BME280_ERROR_I2C_WRITE } else s
  let w := (r.2.call .endTransmission).2
  if s.error = BME280_ERROR_I2C_WRITE then (false, data, s, w) else
  let w := (w.call (.beginTransmission s.address)).2
  let r := w.call (.requestFrom s.address len)
  let count := r.1 % 256
  let w := (r.2.call .endTransmission).2
  if count ≠ len then (false, data, { s with error := BME280_ERROR_I2C_READ }, w) else
  let l := readLoop w data 0 count
  (true, l.1, s, l.2)

/-- Lines 57-64 of `begin`: the bit-field correction of the humidity table. -/
def unpackHumid (data : List Nat) : List Nat :=
  let data := setH6 data (s8 (byteAt data 6))
  let b1 := byteAt data 3 % 256
  let b2 := byteAt data 4 % 256
  let b3 := byteAt data 5 % 256
  let data := setH4 data (((b1 <<< 4 ||| (b2 &&& 0x0F) : Nat) : Int))
  setH5 data (((b3 <<< 4 ||| b2 >>> 4 : Nat) : Int))

/-- Lines 51-66 of `begin`: the humidity table read, then the bit-field correction. -/
def beginHumid (s : Bme280) (w : TwoWire) : Bool × Bme280 × TwoWire :=
  let t := readTable s w BME280_REG_COMP_H2_MSB sizeofCompHumid s.compH
  let s := { t.2.2.1 with compH := t.2.1 }
  if t.1 ≠ true then (false, { s with error := BME280_ERROR_NO_TABLE }, t.2.2.2) else
  (true, { s with compH := unpackHumid s.compH }, t.2.2.2)

/-- Lines 44-66 of `begin`: the read of H1, then the humidity table. -/
def beginH1 (s : Bme280) (w : TwoWire) : Bool × Bme280 × TwoWire :=
  match readByte s w BME280_REG_COMP_H1 with
  | (none, s, w) => (false, { s with error := BME280_ERROR_NO_TABLE_HUMIDITY }, w)
  | (some data, s, w) => beginHumid { s with H1 := data } w

/-- Lines 39-66 of `begin`: the primary table read, then the humidity coefficients. -/
def beginTable (s : Bme280) (w : TwoWire) : Bool × Bme280 × TwoWire :=
  let t := readTable s w BME280_REG_COMP_TABLE sizeofCompData s.compensation
  let s := { t.2.2.1 with compensation := t.2.1 }
  if t.1 ≠ true then (false, { s with error := BME280_ERROR_NO_TABLE }, t.2.2.2) else
  beginH1 s t.2.2.2

/-- Lines 33-66 of `begin`: the soft reset (the `delay(250)` has no effect on the
state), then the coefficient reads. -/
def beginReset (s : Bme280) (w : TwoWire) : Bool × Bme280 × TwoWire :=
  let r := sendByte s w BME280_REG_RESET 0xB6
  if r.1 ≠ true then (false, { r.2.1 with error := BME280_ERROR_NO_RESET }, r.2.2) else
  beginTable r.2.1 r.2.2

/-- Lines 22-71, `Bme280::begin`. -/
def begin (s : Bme280) (w : TwoWire) : Bool × Bme280 × TwoWire :=
  let r := w.call .status
  if r.1 % 256 ≠ 0 then (false, { s with error := BME280_ERROR_I2C_READ }, r.2) else
  match readByte s r.2 BME280_REG_ID with
  | (none, s, w) => (false, { s with error := BME280_ERROR_NO_ANSWER }, w)
  | (some data, s, w) =>
    if data = BME280_DEV_ID then beginReset s w
    else (false, { s with error := BME280_ERROR_NO_ID }, w)

/-- Lines 73-88, `Bme280::configure`. -/
def configure (s : Bme280) (w : TwoWire) (humid pres_temp config : Nat) :
    Bool × Bme280 × TwoWire :=
  let r := sendByte s w BME280_REG_CTRL_HUMI humid
  if r.1 ≠ true then (false, { r.2.1 with error := BME280_ERROR_I2C_WRITE }, r.2.2) else
  let r := sendByte r.2.1 r.2.2 BME280_REG_CONFIG config
  if r.1 ≠ true then (false, { r.2.1 with error := BME280_ERROR_I2C_WRITE }, r.2.2) else
  let r := sendByte r.2.1 r.2.2 BME280_REG_CTRL_MEAS pres_temp
  if r.1 ≠ true then (false, { r.2.1 with error := BME280_ERROR_I2C_WRITE }, r.2.2) else
  (true, r.2.1, r.2.2)

/-- Lines 90-98, `Bme280::standby`. -/
def standby (s : Bme280) (w : TwoWire) : Bool × Bme280 × TwoWire :=
  match readByte s w BME280_REG_CTRL_MEAS with
  | (none, s, w) => (false, { s with error := BME280_ERROR_I2C_READ }, w)
  | (some data, s, w) =>
    let r := sendByte s w BME280_REG_CTRL_MEAS (data &&& 0xFC)
    (true, r.2.1, r.2.2)

/-- Lines 100-111, `Bme280::measure`. -/
def measure (s : Bme280) (w : TwoWire) : Bool × Bme280 × TwoWire :=
  match readByte s w BME280_REG_CTRL_MEAS with
  | (none, s, w) => (false, { s with error := BME280_ERROR_I2C_READ }, w)
  | (some data, s, w) =>
    let r := sendByte s w BME280_REG_CTRL_MEAS ((data &&& 0xFC) ||| 0x02)
    if r.1 ≠ true then (false, { r.2.1 with error := BME280_ERROR_I2C_WRITE }, r.2.2) else
    (true, r.2.1, r.2.2)

/-- Lines 113-124, `Bme280::continuous`. -/
def continuous (s : Bme280) (w : TwoWire) : Bool × Bme280 × TwoWire :=
  match readByte s w BME280_REG_CTRL_MEAS with
  | (none, s, w) => (false, { s with error := BME280_ERROR_I2C_READ }, w)
  | (some data, s, w) =>
    let r := sendByte s w BME280_REG_CTRL_MEAS (data ||| 0x03)
    if r.1 ≠ true then (false, { r.2.1 with error := BME280_ERROR_I2C_WRITE }, r.2.2) else
    (true, r.2.1, r.2.2)

/-- Lines 175-177 on the session: `var1` right before the clamps of lines 178-179. -/
def humPre (s : Bme280) (data : List Nat) : Int :=
  humVar1 (compTableH_var s.compH) s.H1
    (t_fine (compTable_var s.compensation) (rawTemperature data)) (rawHumid data)

/-- Lines 141-180 of `read`: the conversion of a burst; `none` is a division by zero. -/
def convert (s : Bme280) (data : List Nat) : Option Bme280 :=
  let pressure := rawPressure data
  let temperature := rawTemperature data
  let temp : Int := temperature
  let pres : Int := pressure
  let c := compTable_var s.compensation
  let tf := t_fine c temp
  (pressureNum c tf pres).map fun p =>
    { s with
      temperature := temperatureNum tf
      pressure := p
      humidity := humidityNum (humPre s data) }

/-- Lines 126-183, `Bme280::read`; `none` is a division by zero. -/
def read (s : Bme280) (w : TwoWire) : Option (Bool × Bme280 × TwoWire) :=
  let t := readTable s w BME280_REG_PRES_MSB 8 (List.replicate 8 0)
  if t.1 ≠ true then some (false, t.2.2.1, t.2.2.2) else
  (convert t.2.2.1 t.2.1).map fun s => (true, s, t.2.2.2)

/-- Lines 185-201, `Bme280::ready`. -/
def ready (s : Bme280) (w : TwoWire) : Bool × Bme280 × TwoWire :=
  if s.error ≠ BME280_ERROR_NONE then (false, s, w) else
  match readByte s w BME280_REG_STATUS with
  | (none, s, w) => (false, { s with error := BME280_ERROR_NO_ANSWER }, w)
  | (some status, s, w) =>
    if status = 0 then (true, s, w) else (false, { s with error := BME280_ERROR_NONE }, w)

end Bme280

/-! ## Specification-side definitions and the concrete data of the closed statements -/

/-- The 24 coefficient bytes of the datasheet example (T1 = 27504, ..., P9 = 6000). -/
def exTable : List Nat :=
  [112, 107, 67, 103, 24, 252, 125, 142, 67, 214, 208, 11, 39, 11, 140, 0,
   249, 255, 140, 60, 248, 198, 112, 23]

/-- A humidity table: H2 = 362, H3 = 0, H4 = 324, H5 = 50, H6 = 30. -/
def exTableH : List Nat := [106, 1, 0, 0, 68, 1, 50, 0, 30, 0]

/-- A session holding the two tables above, H1 = 75, no error latched. -/
def exSession : Bme280 :=
  { address := BME280_ADDR, compensation := exTable, H1 := 75, compH := exTableH,
    error := BME280_ERROR_NONE, temperature := 0, pressure := 0, humidity := 0 }

/-- A burst with raw pressure 415148, raw temperature 519888 and humidity bytes `h6`, `h7`. -/
def exBurst (h6 h7 : Nat) : List Nat := [101, 90, 192, 126, 237, 0, h6, h7]

/-- A bus that acknowledges every write, delivers every requested count, and
answers each `read()` with 0x60 during the identity read and with the number of
calls issued so far afterwards. -/
def goodBus : TwoWire :=
  { log := []
    respond := fun l c =>
      match c with
      | .write _ => 1
      | .requestFrom _ n => n
      | .read => if l.length < 12 then 0x60 else l.length
      | _ => 0 }

/-- Re-encoding of the twelve decoded fields as 24 bytes: every field as a
little-endian 16-bit word, in the order T1, T2, T3, P1, ..., P9. -/
def compTable_encode (c : compData_t) : List Nat :=
  [lo16 c.T1, hi16 c.T1, lo16 c.T2, hi16 c.T2, lo16 c.T3, hi16 c.T3,
   lo16 c.P1, hi16 c.P1, lo16 c.P2, hi16 c.P2, lo16 c.P3, hi16 c.P3,
   lo16 c.P4, hi16 c.P4, lo16 c.P5, hi16 c.P5, lo16 c.P6, hi16 c.P6,
   lo16 c.P7, hi16 c.P7, lo16 c.P8, hi16 c.P8, lo16 c.P9, hi16 c.P9]

/-- A session with the no-answer error latched. -/
def latchedSession : Bme280 := { exSession with error := BME280_ERROR_NO_ANSWER }

/-- A bus that acknowledges every write, delivers every requested count, and
answers every `read()` with the byte `b`. -/
def constBus (b : Nat) : TwoWire :=
  { log := []
    respond := fun _ c =>
      match c with
      | .write _ => 1
      | .requestFrom _ n => n
      | .read => b
      | _ => 0 }

/-- The session whose primary table is all zero (so P1 = 0). -/
def zeroSession : Bme280 :=
  { exSession with compensation := List.replicate 24 0 }

/-- All data members but `error` agree. -/
def sameButError (s r : Bme280) : Prop :=
  r.address = s.address ∧ r.compensation = s.compensation ∧ r.H1 = s.H1 ∧ r.compH = s.compH ∧
  r.temperature = s.temperature ∧ r.pressure = s.pressure ∧ r.humidity = s.humidity

/-- A session with the generic bus-write failure latched. -/
def staleSession : Bme280 := { exSession with error := BME280_ERROR_I2C_WRITE }

/-- A bus on which nothing is acknowledged: every call returns 0. -/
def deadBus : TwoWire := { log := [], respond := fun _ _ => 0 }

/-- A bus that acknowledges every write and answers every `read()` with 0x60,
but delivers no byte when exactly `n` bytes are requested. -/
def shortBus (n : Nat) : TwoWire :=
  { log := []
    respond := fun _ c =>
      match c with
      | .write _ => 1
      | .requestFrom _ len => if len = n then 0 else len
      | .read => 0x60
      | _ => 0 }

/-- A bus on which the first register read succeeds with the byte `b` and every
`write()` after that read is refused (returns 0). -/
def nackBus (b : Nat) : TwoWire :=
  { log := []
    respond := fun l c =>
      match c with
      | .write _ => if l.length < 7 then 1 else 0
      | .requestFrom _ n => n
      | .read => b
      | _ => 0 }

/-- Lines 22-40 of `begin`, the run up to and including the 24-byte primary
block read: the result of that `readTable` call, or `none` when the run ends
before it (bus unavailable, identity read failed, identity mismatch, reset
failed). -/
def Bme280.primaryRead (s : Bme280) (w : TwoWire) :
    Option (Bool × List Nat × Bme280 × TwoWire) :=
  let r := w.call .status
  if r.1 % 256 ≠ 0 then none else
  match Bme280.readByte s r.2 BME280_REG_ID with
  | (none, _, _) => none
  | (some data, s, w) =>
    if data = BME280_DEV_ID then
      let r := Bme280.sendByte s w BME280_REG_RESET 0xB6
      if r.1 ≠ true then none else
      some (Bme280.readTable r.2.1 r.2.2 BME280_REG_COMP_TABLE sizeofCompData r.2.1.compensation)
    else none

/-- Lines 44-45 of `begin`, the read of H1 in the run: the result of that
`readByte` call, or `none` when the run ends before it (the primary block read
was not reached or failed). -/
def Bme280.h1Read (s : Bme280) (w : TwoWire) : Option (Option Nat × Bme280 × TwoWire) :=
  match Bme280.primaryRead s w with
  | none => none
  | some t =>
    if t.1 ≠ true then none else
    some (Bme280.readByte { t.2.2.1 with compensation := t.2.1 } t.2.2.2 BME280_REG_COMP_H1)

/-- A bus that acknowledges every write and answers every `read()` with 0x60;
the first one-byte request (the identity read) is delivered, a later one-byte
request (the H1 read) delivers nothing. -/
def h1FailBus : TwoWire :=
  { log := []
    respond := fun l c =>
      match c with
      | .write _ => 1
      | .requestFrom _ n => if n = 1 ∧ 12 ≤ l.length then 0 else n
      | .read => 0x60
      | _ => 0 }

/-- The public operations of the class, with their arguments. -/
inductive PublicOp where
  | begin
  | configure (humid pres_temp config : Nat)
  | standby
  | measure
  | continuous
  | read
  | ready

/-- One public call on the session; `none` is a division by zero in `read()`. -/
def Bme280.perform (s : Bme280) (w : TwoWire) : PublicOp → Option (Bool × Bme280 × TwoWire)
  | .begin => some (s.begin w)
  | .configure humid pres_temp config => some (s.configure w humid pres_temp config)
  | .standby => some (s.standby w)
  | .measure => some (s.measure w)
  | .continuous => some (s.continuous w)
  | .read => s.read w
  | .ready => some (s.ready w)

/-- A sequence of public calls, each on the session and bus the previous one left. -/
def Bme280.runOps (s : Bme280) (w : TwoWire) : List PublicOp → Option (Bme280 × TwoWire)
  | [] => some (s, w)
  | op :: ops =>
    match s.perform w op with
    | none => none
    | some r => Bme280.runOps r.2.1 r.2.2 ops

/-- Membership in the range of `int32_t`. -/
def inInt32 (x : Int) : Prop := -2147483648 ≤ x ∧ x ≤ 2147483647

/-- Line 151 evaluated over unbounded integers. -/
def tempVar1_unbounded (c : compData_t) (temp : Int) : Int :=
  asr ((asr temp 3 - (c.T1 : Int) * 2) * c.T2) 11

/-- Line 152 evaluated over unbounded integers. -/
def tempVar2_unbounded (c : compData_t) (temp : Int) : Int :=
  asr (asr ((asr temp 4 - (c.T1 : Int)) * (asr temp 4 - (c.T1 : Int))) 12 * c.T3) 14

/-- Line 153 evaluated over unbounded integers. -/
def t_fine_unbounded (c : compData_t) (temp : Int) : Int :=
  tempVar1_unbounded c temp + tempVar2_unbounded c temp

/-- The numerator of line 154 evaluated over unbounded integers. -/
def temperatureNum_unbounded (tf : Int) : Int := asr (tf * 5 + 128) 8

/-- Coefficients T1 = 0, T2 = 32767, T3 = 0 (the pressure fields are not used). -/
def edgeCoefficients : compData_t :=
  { T1 := 0, T2 := 32767, T3 := 0, P1 := 0, P2 := 0, P3 := 0, P4 := 0, P5 := 0, P6 := 0,
    P7 := 0, P8 := 0, P9 := 0 }

/-! ## Auxiliary facts -/

theorem byteAt_zero (a : Nat) (l : List Nat) : byteAt (a :: l) 0 = a := rfl

theorem byteAt_succ (a : Nat) (l : List Nat) (n : Nat) :
    byteAt (a :: l) (n + 1) = byteAt l n := rfl

theorem pressureNum_total (c : compData_t) (tf pres : Int) :
    ∃ p, pressureNum c tf pres = some p := by
  unfold pressureNum
  by_cases h : presDenominator c tf = 0
  · exact ⟨0, by simp [h]⟩
  · simp [h, presElse, div64]

theorem convert_total (s : Bme280) (data : List Nat) :
    ∃ p r, pressureNum (compTable_var s.compensation)
        (t_fine (compTable_var s.compensation) (rawTemperature data)) (rawPressure data) = some p ∧
      s.convert data = some r ∧
      r.temperature = temperatureNum (t_fine (compTable_var s.compensation) (rawTemperature data)) ∧
      r.pressure = p ∧
      r.humidity = humidityNum (s.humPre data) ∧
      r.error = s.error ∧ r.compensation = s.compensation ∧ r.H1 = s.H1 ∧ r.compH = s.compH ∧
      r.address = s.address := by
  obtain ⟨p, hp⟩ := pressureNum_total (compTable_var s.compensation)
    (t_fine (compTable_var s.compensation) (rawTemperature data)) (rawPressure data)
  refine ⟨p, { s with
      temperature := temperatureNum (t_fine (compTable_var s.compensation) (rawTemperature data))
      pressure := p
      humidity := humidityNum (s.humPre data) }, hp, ?_, ?_, ?_, ?_, ?_, ?_, ?_, ?_, ?_⟩
  · simp only [Bme280.convert, hp, Option.map_some']
  all_goals dsimp only

theorem humidityNum_of_neg (v : Int) (h : v < 0) : humidityNum v = 0 := by
  simp [humidityNum, humClamp, h, asr]

theorem humidityNum_of_large (v : Int) (h : 419430400 < v) : humidityNum v = 102400 := by
  have h1 : ¬ v < 0 := by omega
  simp only [humidityNum, humClamp, h1, if_false, gt_iff_lt, h, if_true, asr]
  decide

theorem exSession_humPre_low : exSession.humPre (exBurst 0 0) = -503605497 := rfl

theorem exSession_humPre_high : exSession.humPre (exBurst 255 255) = 1019941876 := rfl

/-! ## Humidity clamp -/

/-- C1 (as amended): whenever `var1` before the two clamp statements of `read()`
is below 0 the reported humidity is exactly 0.0 (numerator 0), and whenever it
is above 419430400 the numerator is `419430400 >> 12 = 102400`, so the reported
humidity is exactly `102400 / 1024.0 = 100.0`. -/
theorem humidity_clamp (s : Bme280) (data : List Nat) :
    (s.humPre data < 0 →
      ∃ r, s.convert data = some r ∧ r.humidity = 0 ∧ humidityValue r.humidity = 0) ∧
    (419430400 < s.humPre data →
      ∃ r, s.convert data = some r ∧ r.humidity = 102400 ∧ humidityValue r.humidity = 100) := by
  obtain ⟨p, r, _, hc, _, _, hh, _⟩ := convert_total s data
  constructor
  · intro h
    have hn := humidityNum_of_neg _ h
    refine ⟨r, hc, hh.trans hn, ?_⟩
    rw [hh, hn]
    simp [humidityValue]
  · intro h
    have hn := humidityNum_of_large _ h
    refine ⟨r, hc, hh.trans hn, ?_⟩
    rw [hh, hn]
    simp only [humidityValue]
    norm_num

theorem humidity_clamp_witness :
    (exSession.humPre (exBurst 0 0) < 0 ∧
      ∃ r, exSession.convert (exBurst 0 0) = some r ∧ r.humidity = 0 ∧
        humidityValue r.humidity = 0) ∧
    (419430400 < exSession.humPre (exBurst 255 255) ∧
      ∃ r, exSession.convert (exBurst 255 255) = some r ∧ r.humidity = 102400 ∧
        humidityValue r.humidity = 100) :=
  ⟨⟨by rw [exSession_humPre_low]; decide,
    (humidity_clamp exSession (exBurst 0 0)).1 (by rw [exSession_humPre_low]; decide)⟩,
   ⟨by rw [exSession_humPre_high]; decide,
    (humidity_clamp exSession (exBurst 255 255)).2 (by rw [exSession_humPre_high]; decide)⟩⟩

/-- C1 as stated fails: on the burst `exBurst 255 255` the intermediate is above
419430400, yet the reported humidity is `100`, not `419430400 / 1024 = 409600`. -/
theorem humidity_clamp_counterexample :
    ¬ (∀ (s : Bme280) (data : List Nat), 419430400 < s.humPre data →
        ∃ r, s.convert data = some r ∧ humidityValue r.humidity = 419430400 / 1024) := by
  intro hall
  obtain ⟨r, hr, hv⟩ := hall exSession (exBurst 255 255)
    (by rw [exSession_humPre_high]; decide)
  obtain ⟨p, r2, _, hc, _, _, hh, _⟩ := convert_total exSession (exBurst 255 255)
  rw [hc] at hr
  cases hr
  have hn : humidityNum (exSession.humPre (exBurst 255 255)) = 102400 :=
    humidityNum_of_large _ (by rw [exSession_humPre_high]; decide)
  rw [hh, hn] at hv
  simp only [humidityValue] at hv
  norm_num at hv

/-! ## Datasheet example -/

theorem exTable_var :
    compTable_var exTable =
      (⟨27504, 26435, -1000, 36477, -10685, 3024, 2855, 140, -7, 15500, -14600, 6000⟩ :
        compData_t) := by
  decide

theorem exBurst_raw (h6 h7 : Nat) :
    rawTemperature (exBurst h6 h7) = 519888 ∧ rawPressure (exBurst h6 h7) = 415148 := by
  constructor
  · simp only [rawTemperature, exBurst, byteAt_succ, byteAt_zero]
    decide
  · simp only [rawPressure, exBurst, byteAt_succ, byteAt_zero]
    decide

/-- C4: with the datasheet coefficients (T1 = 27504, ..., P9 = 6000) and a burst
whose raw temperature is 519888 and raw pressure is 415148, `read()` computes
`t_fine = 128422`, the temperature numerator 2508, and a pressure integer `p`
with `100653 * 256 ≤ p < 100654 * 256`; these are the values stored by the
conversion, whatever the humidity bytes and humidity coefficients are. -/
theorem datasheet_example (s : Bme280) (h6 h7 : Nat) :
    compTable_var exTable =
      (⟨27504, 26435, -1000, 36477, -10685, 3024, 2855, 140, -7, 15500, -14600, 6000⟩ :
        compData_t) ∧
    rawTemperature (exBurst h6 h7) = 519888 ∧
    rawPressure (exBurst h6 h7) = 415148 ∧
    t_fine (compTable_var exTable) 519888 = 128422 ∧
    temperatureNum 128422 = 2508 ∧
    (∃ p, pressureNum (compTable_var exTable) 128422 415148 = some p ∧
      100653 * 256 ≤ p ∧ p < 100654 * 256) ∧
    (∃ r, Bme280.convert { s with compensation := exTable } (exBurst h6 h7) = some r ∧
      r.temperature = 2508 ∧ 100653 * 256 ≤ r.pressure ∧ r.pressure < 100654 * 256) := by
  have hraw := exBurst_raw h6 h7
  have htf : t_fine (compTable_var exTable) 519888 = 128422 := by rw [exTable_var]; decide
  have hp : pressureNum (compTable_var exTable) 128422 415148 = some 25767233 := by
    rw [exTable_var]; decide
  refine ⟨exTable_var, hraw.1, hraw.2, htf, by decide, ⟨25767233, hp, by decide, by decide⟩, ?_⟩
  obtain ⟨p, r, hpp, hc, ht, hpr, _⟩ :=
    convert_total { s with compensation := exTable } (exBurst h6 h7)
  dsimp only at hpp ht
  rw [hraw.1, hraw.2] at hpp
  rw [hraw.1] at ht
  simp only [Nat.cast_ofNat] at hpp ht
  rw [htf] at hpp ht
  rw [hp] at hpp
  cases hpp
  refine ⟨r, hc, ?_, ?_, ?_⟩
  · rw [ht]; decide
  · rw [hpr]; decide
  · rw [hpr]; decide

/-! ## Pressure division guard -/

theorem presDenominator_of_P1_zero (c : compData_t) (tf : Int) (h : c.P1 = 0) :
    presDenominator c tf = 0 := by
  simp [presDenominator, h, mul64, wrap64, asr]

theorem read_total (s : Bme280) (w : TwoWire) : ∃ r, s.read w = some r := by
  unfold Bme280.read
  generalize s.readTable w BME280_REG_PRES_MSB 8 (List.replicate 8 0) = t
  obtain ⟨b, d, s1, w1⟩ := t
  cases b
  · exact ⟨(false, s1, w1), by simp⟩
  · obtain ⟨p, r, _, hc, _⟩ := convert_total s1 d
    exact ⟨(true, r, w1), by simp [hc]⟩

/-- C5: `read()` never divides by zero (it always returns, and so does its
pressure stage); whenever the denominator term `((2^47 + v1) * P1) >> 33` is
zero, in particular whenever P1 = 0, the reported pressure is exactly 0.0; in
every other case the pressure comes from the else-branch, whose single division
has that (nonzero) term as its divisor and so is defined. -/
theorem pressure_division_guard (s : Bme280) (w : TwoWire) (data : List Nat) :
    (∃ r, s.read w = some r) ∧
    (∀ c tf pres, ∃ p, pressureNum c tf pres = some p) ∧
    (presDenominator (compTable_var s.compensation)
        (t_fine (compTable_var s.compensation) (rawTemperature data)) = 0 →
      ∃ r, s.convert data = some r ∧ r.pressure = 0) ∧
    ((compTable_var s.compensation).P1 = 0 →
      presDenominator (compTable_var s.compensation)
        (t_fine (compTable_var s.compensation) (rawTemperature data)) = 0) ∧
    (∀ c tf pres, presDenominator c tf ≠ 0 →
      pressureNum c tf pres = presElse c tf pres ∧
      ∀ a, ∃ q, div64 a (presDenominator c tf) = some q) := by
  refine ⟨read_total s w, pressureNum_total, ?_, ?_, ?_⟩
  · intro h
    obtain ⟨p, r, hp, hc, _, hpr, _⟩ := convert_total s data
    refine ⟨r, hc, ?_⟩
    rw [hpr]
    simp only [pressureNum, h, if_true, Option.some.injEq] at hp
    exact hp.symm
  · intro h
    exact presDenominator_of_P1_zero _ _ h
  · intro c tf pres h
    refine ⟨by simp only [pressureNum, h, if_false], ?_⟩
    intro a
    exact ⟨wrap64 (Int.tdiv a (presDenominator c tf)), by simp only [div64, h, if_false]⟩

theorem zeroSession_P1 : (compTable_var zeroSession.compensation).P1 = 0 := by decide

theorem exTable_denominator : presDenominator (compTable_var exTable) 128422 = 597560748 := by
  rw [exTable_var]; decide

theorem pressure_division_guard_witness :
    (compTable_var zeroSession.compensation).P1 = 0 ∧
    presDenominator (compTable_var zeroSession.compensation)
        (t_fine (compTable_var zeroSession.compensation) (rawTemperature (exBurst 0 0))) = 0 ∧
    (∃ r, zeroSession.convert (exBurst 0 0) = some r ∧ r.pressure = 0) ∧
    presDenominator (compTable_var exTable) 128422 ≠ 0 ∧
    pressureNum (compTable_var exTable) 128422 415148 =
      presElse (compTable_var exTable) 128422 415148 :=
  have g := pressure_division_guard zeroSession ⟨fun _ _ => 0, []⟩ (exBurst 0 0)
  have hne : presDenominator (compTable_var exTable) 128422 ≠ 0 := by
    rw [exTable_denominator]; decide
  ⟨zeroSession_P1, g.2.2.2.1 zeroSession_P1, g.2.2.1 (g.2.2.2.1 zeroSession_P1), hne,
    (g.2.2.2.2 _ 128422 415148 hne).1⟩

/-! ## Humidity bit-field decode -/

theorem s16le_lo16_hi16 (v : Int) (h1 : -32768 ≤ v) (h2 : v < 32768) :
    s16le (lo16 v) (hi16 v) = v := by
  unfold s16le u16le lo16 hi16
  split <;> omega

theorem lo16_hi16_s16le (a b : Nat) (ha : a < 256) (hb : b < 256) :
    lo16 (s16le a b) = a ∧ hi16 (s16le a b) = b := by
  unfold s16le u16le lo16 hi16
  split <;> omega

theorem lo16_hi16_u16le (a b : Nat) (ha : a < 256) (hb : b < 256) :
    lo16 (u16le a b : Int) = a ∧ hi16 (u16le a b : Int) = b := by
  unfold u16le lo16 hi16
  omega

theorem s8_store (b : Nat) : s8 ((s8 b % 256).toNat) = s8 b := by
  unfold s8
  split <;> split <;> omega

theorem nibble_or_lt (a b : Nat) (ha : a < 256) : a <<< 4 ||| b < 4096 ∨ 16 ≤ b := by
  by_cases hb : b < 16
  · left
    have h1 : a <<< 4 < 2 ^ 12 := by rw [Nat.shiftLeft_eq]; omega
    have h2 : b < 2 ^ 12 := by omega
    exact Nat.or_lt_two_pow h1 h2
  · right; omega

theorem packed_lt (a b : Nat) (ha : a < 256) (hb : b < 16) : a <<< 4 ||| b < 4096 := by
  rcases nibble_or_lt a b ha with h | h
  · exact h
  · omega

theorem unpackHumid_var (data : List Nat) (hlen : data.length = 10)
    (hb : ∀ b ∈ data, b < 256) :
    (compTableH_var (Bme280.unpackHumid data)).H4 =
      ((byteAt data 3 <<< 4 ||| (byteAt data 4 &&& 0x0F) : Nat) : Int) ∧
    (compTableH_var (Bme280.unpackHumid data)).H5 =
      ((byteAt data 5 <<< 4 ||| byteAt data 4 >>> 4 : Nat) : Int) ∧
    (compTableH_var (Bme280.unpackHumid data)).H6 = s8 (byteAt data 6) :=
  match data, hlen, hb with
  | [a0, a1, a2, a3, a4, a5, a6, a7, a8, a9], _, hb => by
    have h3 : a3 < 256 := hb a3 (by simp)
    have h4 : a4 < 256 := hb a4 (by simp)
    have h5 : a5 < 256 := hb a5 (by simp)
    have hlow : a4 &&& 15 < 16 := Nat.lt_succ_of_le Nat.and_le_right
    have hhigh : a4 >>> 4 < 16 := by rw [Nat.shiftRight_eq_div_pow]; omega
    have e4 := packed_lt a3 (a4 &&& 15) h3 hlow
    have e5 := packed_lt a5 (a4 >>> 4) h5 hhigh
    simp only [Bme280.unpackHumid, setH6, setH4, setH5, compTableH_var, byteAt_succ, byteAt_zero,
      List.set_cons_succ, List.set_cons_zero, Nat.mod_eq_of_lt h3, Nat.mod_eq_of_lt h4,
      Nat.mod_eq_of_lt h5]
    refine ⟨?_, ?_, ?_⟩
    · exact s16le_lo16_hi16 ((a3 <<< 4 ||| a4 &&& 15 : Nat) : Int) (by omega) (by omega)
    · exact s16le_lo16_hi16 ((a5 <<< 4 ||| a4 >>> 4 : Nat) : Int) (by omega) (by omega)
    · exact s8_store a6

theorem sameButError_refl (s : Bme280) : sameButError s s :=
  ⟨rfl, rfl, rfl, rfl, rfl, rfl, rfl⟩

theorem sameButError_setError (s r : Bme280) (e : Nat) (h : sameButError s r) :
    sameButError s { r with error := e } := h

theorem sameButError_trans (s r t : Bme280) (h1 : sameButError s r) (h2 : sameButError r t) :
    sameButError s t := by
  obtain ⟨a1, a2, a3, a4, a5, a6, a7⟩ := h1
  obtain ⟨b1, b2, b3, b4, b5, b6, b7⟩ := h2
  exact ⟨b1.trans a1, b2.trans a2, b3.trans a3, b4.trans a4, b5.trans a5, b6.trans a6,
    b7.trans a7⟩

theorem readByte_some (s : Bme280) (w : TwoWire) (reg b : Nat) (s1 : Bme280) (w1 : TwoWire)
    (h : s.readByte w reg = (some b, s1, w1)) : s1 = s := by
  unfold Bme280.readByte at h
  dsimp only at h
  split_ifs at h
  all_goals first
    | exact Option.noConfusion (congrArg Prod.fst h)
    | exact (congrArg (fun x => x.2.1) h).symm

theorem readByte_frame (s : Bme280) (w : TwoWire) (reg : Nat) :
    sameButError s (s.readByte w reg).2.1 := by
  unfold Bme280.readByte
  dsimp only
  split_ifs <;> exact sameButError_refl s

theorem sendByte_frame (s : Bme280) (w : TwoWire) (reg data : Nat) :
    sameButError s (s.sendByte w reg data).2.1 := by
  unfold Bme280.sendByte
  dsimp only
  split_ifs <;> exact sameButError_refl s

theorem readTable_frame (s : Bme280) (w : TwoWire) (reg len : Nat) (data : List Nat) :
    sameButError s (s.readTable w reg len data).2.2.1 := by
  unfold Bme280.readTable
  dsimp only
  split_ifs <;> exact sameButError_refl s

/-- C3: decoding a 24-byte block into the twelve fields T1, T2, T3, P1 .. P9
(little-endian 16-bit words, T1 and P1 unsigned, the others signed) and
re-encoding the fields reproduces the 24 bytes. -/
theorem primary_round_trip (data : List Nat) (hlen : data.length = 24)
    (hb : ∀ b ∈ data, b < 256) : compTable_encode (compTable_var data) = data :=
  match data, hlen, hb with
  | [a0, a1, a2, a3, a4, a5, a6, a7, a8, a9, a10, a11, a12, a13, a14, a15, a16, a17, a18,
      a19, a20, a21, a22, a23], _, hb => by
    have h0 := hb a0 (by simp)
    have h1 := hb a1 (by simp)
    have h2 := hb a2 (by simp)
    have h3 := hb a3 (by simp)
    have h4 := hb a4 (by simp)
    have h5 := hb a5 (by simp)
    have h6 := hb a6 (by simp)
    have h7 := hb a7 (by simp)
    have h8 := hb a8 (by simp)
    have h9 := hb a9 (by simp)
    have h10 := hb a10 (by simp)
    have h11 := hb a11 (by simp)
    have h12 := hb a12 (by simp)
    have h13 := hb a13 (by simp)
    have h14 := hb a14 (by simp)
    have h15 := hb a15 (by simp)
    have h16 := hb a16 (by simp)
    have h17 := hb a17 (by simp)
    have h18 := hb a18 (by simp)
    have h19 := hb a19 (by simp)
    have h20 := hb a20 (by simp)
    have h21 := hb a21 (by simp)
    have h22 := hb a22 (by simp)
    have h23 := hb a23 (by simp)
    simp only [compTable_encode, compTable_var, byteAt_succ, byteAt_zero]
    rw [(lo16_hi16_u16le a0 a1 h0 h1).1, (lo16_hi16_u16le a0 a1 h0 h1).2,
      (lo16_hi16_s16le a2 a3 h2 h3).1, (lo16_hi16_s16le a2 a3 h2 h3).2,
      (lo16_hi16_s16le a4 a5 h4 h5).1, (lo16_hi16_s16le a4 a5 h4 h5).2,
      (lo16_hi16_u16le a6 a7 h6 h7).1, (lo16_hi16_u16le a6 a7 h6 h7).2,
      (lo16_hi16_s16le a8 a9 h8 h9).1, (lo16_hi16_s16le a8 a9 h8 h9).2,
      (lo16_hi16_s16le a10 a11 h10 h11).1, (lo16_hi16_s16le a10 a11 h10 h11).2,
      (lo16_hi16_s16le a12 a13 h12 h13).1, (lo16_hi16_s16le a12 a13 h12 h13).2,
      (lo16_hi16_s16le a14 a15 h14 h15).1, (lo16_hi16_s16le a14 a15 h14 h15).2,
      (lo16_hi16_s16le a16 a17 h16 h17).1, (lo16_hi16_s16le a16 a17 h16 h17).2,
      (lo16_hi16_s16le a18 a19 h18 h19).1, (lo16_hi16_s16le a18 a19 h18 h19).2,
      (lo16_hi16_s16le a20 a21 h20 h21).1, (lo16_hi16_s16le a20 a21 h20 h21).2,
      (lo16_hi16_s16le a22 a23 h22 h23).1, (lo16_hi16_s16le a22 a23 h22 h23).2]

theorem primary_round_trip_witness :
    exTable.length = 24 ∧ (∀ b ∈ exTable, b < 256) ∧
    compTable_encode (compTable_var exTable) = exTable :=
  ⟨rfl, by decide, primary_round_trip exTable rfl (by decide)⟩

/-! ## Raw sample extraction -/

theorem shr4_or_congr (x c e : Nat) (h : e >>> 4 = c >>> 4) :
    (x ||| e) >>> 4 = (x ||| c) >>> 4 := by
  apply Nat.eq_of_testBit_eq
  intro i
  have hbit : e.testBit (4 + i) = c.testBit (4 + i) := by
    rw [← Nat.testBit_shiftRight, ← Nat.testBit_shiftRight, h]
  simp only [Nat.testBit_shiftRight, Nat.testBit_or, hbit]

theorem raw24_lt (a b c : Nat) (ha : a < 256) (hb : b < 256) (hc : c < 256) :
    (a <<< 16 ||| b <<< 8 ||| c) >>> 4 < 2 ^ 20 := by
  have h1 : a <<< 16 < 2 ^ 24 := by rw [Nat.shiftLeft_eq]; omega
  have h2 : b <<< 8 < 2 ^ 24 := by rw [Nat.shiftLeft_eq]; omega
  have h3 : c < 2 ^ 24 := by omega
  have h := Nat.or_lt_two_pow (Nat.or_lt_two_pow h1 h2) h3
  rw [Nat.shiftRight_eq_div_pow]
  omega

theorem raw16_lt (a b : Nat) (ha : a < 256) (hb : b < 256) : a <<< 8 ||| b < 2 ^ 16 := by
  have h1 : a <<< 8 < 2 ^ 16 := by rw [Nat.shiftLeft_eq]; omega
  have h2 : b < 2 ^ 16 := by omega
  exact Nat.or_lt_two_pow h1 h2

/-- C6: for every 8-byte burst `d0 .. d7`, raw pressure is
`(d0<<16 | d1<<8 | d2) >> 4` and raw temperature `(d3<<16 | d4<<8 | d5) >> 4`,
both in `[0, 2^20)`; raw humidity is `d6<<8 | d7`, in `[0, 2^16)`; and replacing
`d2`, `d5` by bytes with the same upper four bits changes no output of the
conversion. -/
theorem raw_sample_extraction (d0 d1 d2 d3 d4 d5 d6 d7 : Nat)
    (h0 : d0 < 256) (h1 : d1 < 256) (h2 : d2 < 256) (h3 : d3 < 256)
    (h4 : d4 < 256) (h5 : d5 < 256) (h6 : d6 < 256) (h7 : d7 < 256) :
    rawPressure [d0, d1, d2, d3, d4, d5, d6, d7] = (d0 <<< 16 ||| d1 <<< 8 ||| d2) >>> 4 ∧
    rawTemperature [d0, d1, d2, d3, d4, d5, d6, d7] = (d3 <<< 16 ||| d4 <<< 8 ||| d5) >>> 4 ∧
    rawHumid [d0, d1, d2, d3, d4, d5, d6, d7] = d6 <<< 8 ||| d7 ∧
    rawPressure [d0, d1, d2, d3, d4, d5, d6, d7] < 2 ^ 20 ∧
    rawTemperature [d0, d1, d2, d3, d4, d5, d6, d7] < 2 ^ 20 ∧
    rawHumid [d0, d1, d2, d3, d4, d5, d6, d7] < 2 ^ 16 ∧
    ∀ (s : Bme280) (e2 e5 : Nat), e2 < 256 → e5 < 256 →
      e2 >>> 4 = d2 >>> 4 → e5 >>> 4 = d5 >>> 4 →
      s.convert [d0, d1, e2, d3, d4, e5, d6, d7] = s.convert [d0, d1, d2, d3, d4, d5, d6, d7] := by
  have hP : ∀ x y : Nat, rawPressure [d0, d1, x, d3, d4, y, d6, d7] =
      (d0 <<< 16 ||| d1 <<< 8 ||| x) >>> 4 := by
    intro x y
    simp only [rawPressure, byteAt_succ, byteAt_zero]
  have hT : ∀ x y : Nat, rawTemperature [d0, d1, x, d3, d4, y, d6, d7] =
      (d3 <<< 16 ||| d4 <<< 8 ||| y) >>> 4 := by
    intro x y
    simp only [rawTemperature, byteAt_succ, byteAt_zero]
  have hH : ∀ x y : Nat, rawHumid [d0, d1, x, d3, d4, y, d6, d7] = d6 <<< 8 ||| d7 := by
    intro x y
    simp only [rawHumid, byteAt_succ, byteAt_zero]
    exact Nat.mod_eq_of_lt (raw16_lt d6 d7 h6 h7)
  refine ⟨hP d2 d5, hT d2 d5, hH d2 d5, ?_, ?_, ?_, ?_⟩
  · rw [hP]; exact raw24_lt d0 d1 d2 h0 h1 h2
  · rw [hT]; exact raw24_lt d3 d4 d5 h3 h4 h5
  · rw [hH]; exact raw16_lt d6 d7 h6 h7
  · intro s e2 e5 _ _ g2 g5
    have eP : rawPressure [d0, d1, e2, d3, d4, e5, d6, d7] =
        rawPressure [d0, d1, d2, d3, d4, d5, d6, d7] := by
      rw [hP, hP]; exact shr4_or_congr _ _ _ g2
    have eT : rawTemperature [d0, d1, e2, d3, d4, e5, d6, d7] =
        rawTemperature [d0, d1, d2, d3, d4, d5, d6, d7] := by
      rw [hT, hT]; exact shr4_or_congr _ _ _ g5
    have eH : rawHumid [d0, d1, e2, d3, d4, e5, d6, d7] =
        rawHumid [d0, d1, d2, d3, d4, d5, d6, d7] := by
      rw [hH, hH]
    unfold Bme280.convert Bme280.humPre
    rw [eP, eT, eH]

theorem raw_sample_extraction_witness :
    rawPressure (exBurst 128 0) = (101 <<< 16 ||| 90 <<< 8 ||| 192) >>> 4 ∧
    rawPressure (exBurst 128 0) < 2 ^ 20 ∧
    exSession.convert [101, 90, 207, 126, 237, 15, 128, 0] = exSession.convert (exBurst 128 0) :=
  have g := raw_sample_extraction 101 90 192 126 237 0 128 0 (by decide) (by decide)
    (by decide) (by decide) (by decide) (by decide) (by decide) (by decide)
  ⟨g.1, g.2.2.2.1, g.2.2.2.2.2.2 exSession 207 15 (by decide) (by decide) (by decide)
    (by decide)⟩

/-! ## `ready()` -/

theorem ready_latched (s : Bme280) (w : TwoWire) (h : s.error ≠ BME280_ERROR_NONE) :
    s.ready w = (false, s, w) := by
  unfold Bme280.ready
  rw [if_pos h]

theorem ready_clear (s : Bme280) (w : TwoWire) (b : Nat) (s1 : Bme280) (w1 : TwoWire)
    (h : s.error = BME280_ERROR_NONE)
    (hr : s.readByte w BME280_REG_STATUS = (some b, s1, w1)) :
    s.ready w =
      if b = 0 then (true, s, w1) else (false, { s with error := BME280_ERROR_NONE }, w1) := by
  have hs := readByte_some s w _ b s1 w1 hr
  subst hs
  unfold Bme280.ready
  rw [if_neg (not_not.mpr h), hr]

theorem constBus_status (b : Nat) (s : Bme280) :
    s.readByte (constBus b) BME280_REG_STATUS =
      (some (b % 256), s, (s.readByte (constBus b) BME280_REG_STATUS).2.2) := rfl

/-- C7 (as amended): for every session state with no error latched on entry in
which the status register read succeeds with value exactly 0, `ready()` returns
true and the error field is none afterwards. -/
theorem ready_zero_status (s : Bme280) (w : TwoWire) (s1 : Bme280) (w1 : TwoWire)
    (h : s.error = BME280_ERROR_NONE)
    (hr : s.readByte w BME280_REG_STATUS = (some 0, s1, w1)) :
    (s.ready w).1 = true ∧ (s.ready w).2.1.error = BME280_ERROR_NONE := by
  rw [ready_clear s w 0 s1 w1 h hr, if_pos rfl]
  exact ⟨rfl, h⟩

theorem ready_zero_status_witness :
    exSession.error = BME280_ERROR_NONE ∧
    exSession.readByte (constBus 0) BME280_REG_STATUS =
      (some 0, exSession, (exSession.readByte (constBus 0) BME280_REG_STATUS).2.2) ∧
    (exSession.ready (constBus 0)).1 = true ∧
    (exSession.ready (constBus 0)).2.1.error = BME280_ERROR_NONE :=
  ⟨rfl, constBus_status 0 exSession,
    ready_zero_status exSession (constBus 0) exSession _ rfl (constBus_status 0 exSession)⟩

/-- C7 as stated fails: with the no-answer error latched and a bus on which the
status register read succeeds with value 0, `ready()` returns false and the
error stays latched. -/
theorem ready_zero_status_counterexample :
    ¬ (∀ (s : Bme280) (w : TwoWire) (s1 : Bme280) (w1 : TwoWire),
        s.readByte w BME280_REG_STATUS = (some 0, s1, w1) →
        (s.ready w).1 = true ∧ (s.ready w).2.1.error = BME280_ERROR_NONE) := by
  intro hall
  have h := (hall latchedSession (constBus 0) latchedSession _
    (constBus_status 0 latchedSession)).1
  rw [ready_latched latchedSession (constBus 0) (by decide)] at h
  exact Bool.noConfusion h

/-- C8: whenever the error field is not none on entry, `ready()` returns false,
issues no bus call (the bus, and so its call log, is the one passed in) and
leaves the session, and so its error field, unchanged. -/
theorem ready_short_circuit (s : Bme280) (w : TwoWire) (h : s.error ≠ BME280_ERROR_NONE) :
    s.ready w = (false, s, w) ∧ (s.ready w).1 = false ∧
    (s.ready w).2.2.log = w.log ∧ (s.ready w).2.1.error = s.error := by
  rw [ready_latched s w h]
  exact ⟨rfl, rfl, rfl, rfl⟩

theorem ready_short_circuit_witness :
    latchedSession.error ≠ BME280_ERROR_NONE ∧
    latchedSession.ready (constBus 0) = (false, latchedSession, constBus 0) ∧
    (latchedSession.ready (constBus 0)).1 = false ∧
    (latchedSession.ready (constBus 0)).2.2.log = (constBus 0).log ∧
    (latchedSession.ready (constBus 0)).2.1.error = latchedSession.error :=
  ⟨by decide, ready_short_circuit latchedSession (constBus 0) (by decide)⟩

/-- C9: for every session state and every nonzero status byte returned by a
successful status-register read, `ready()` returns false and the error field
after the call equals the error field before it. -/
theorem ready_nonzero_status (s : Bme280) (w : TwoWire) (b : Nat) (s1 : Bme280)
    (w1 : TwoWire) (hr : s.readByte w BME280_REG_STATUS = (some b, s1, w1)) (hb : b ≠ 0) :
    (s.ready w).1 = false ∧ (s.ready w).2.1.error = s.error := by
  by_cases h : s.error = BME280_ERROR_NONE
  · rw [ready_clear s w b s1 w1 h hr, if_neg hb]
    exact ⟨rfl, h.symm⟩
  · rw [ready_latched s w h]
    exact ⟨rfl, rfl⟩

theorem ready_nonzero_status_witness :
    exSession.readByte (constBus 8) BME280_REG_STATUS =
      (some 8, exSession, (exSession.readByte (constBus 8) BME280_REG_STATUS).2.2) ∧
    (8 : Nat) ≠ 0 ∧
    (exSession.ready (constBus 8)).1 = false ∧
    (exSession.ready (constBus 8)).2.1.error = exSession.error :=
  ⟨constBus_status 8 exSession, by decide,
    ready_nonzero_status exSession (constBus 8) 8 exSession _ (constBus_status 8 exSession)
      (by decide)⟩

/-! ## Identity mismatch in `begin()` -/

theorem readByte_some_log (s : Bme280) (w : TwoWire) (reg b : Nat) (s1 : Bme280)
    (w1 : TwoWire) (h : s.readByte w reg = (some b, s1, w1)) :
    w1.log = w.log ++
      [WireCall.beginTransmission s.address, WireCall.write reg, WireCall.endTransmission,
       WireCall.beginTransmission s.address, WireCall.requestFrom s.address 1,
       WireCall.endTransmission, WireCall.read] := by
  unfold Bme280.readByte at h
  dsimp only at h
  split_ifs at h
  all_goals first
    | exact Option.noConfusion (congrArg Prod.fst h)
    | (have hw := congrArg (fun x => x.2.2) h
       dsimp only at hw
       rw [← hw]
       simp only [TwoWire.call, List.append_assoc, List.singleton_append, List.cons_append,
         List.nil_append])

theorem begin_mismatch (s : Bme280) (w : TwoWire) (b : Nat) (s1 : Bme280) (w1 : TwoWire)
    (hbus : (w.call WireCall.status).1 % 256 = 0)
    (hid : s.readByte (w.call WireCall.status).2 BME280_REG_ID = (some b, s1, w1))
    (hne : b ≠ BME280_DEV_ID) :
    s.begin w = (false, { s with error := BME280_ERROR_NO_ID }, w1) := by
  have hs := readByte_some s _ _ b s1 w1 hid
  subst hs
  unfold Bme280.begin
  dsimp only
  rw [if_neg (not_not.mpr hbus), hid]
  dsimp only
  rw [if_neg hne]

/-- C10: when the bus is available and the identity register read succeeds with
a byte different from 0x60, `begin()` returns false with error 0x20; the calls it
issued are the status query and the calls of that one identity read, so there is
no reset write and no further read; and the primary table, H1 and the humidity
table are unchanged. -/
theorem identity_mismatch (s : Bme280) (w : TwoWire) (b : Nat) (s1 : Bme280) (w1 : TwoWire)
    (hbus : (w.call WireCall.status).1 % 256 = 0)
    (hid : s.readByte (w.call WireCall.status).2 BME280_REG_ID = (some b, s1, w1))
    (hne : b ≠ 0x60) :
    (s.begin w).1 = false ∧ (s.begin w).2.1.error = 0x20 ∧
    (s.begin w).2.2.log = w.log ++
      [WireCall.status,
       WireCall.beginTransmission s.address, WireCall.write BME280_REG_ID,
       WireCall.endTransmission, WireCall.beginTransmission s.address,
       WireCall.requestFrom s.address 1, WireCall.endTransmission, WireCall.read] ∧
    WireCall.write 0xB6 ∉ ((s.begin w).2.2.log.drop w.log.length) ∧
    (s.begin w).2.1.compensation = s.compensation ∧
    (s.begin w).2.1.H1 = s.H1 ∧
    (s.begin w).2.1.compH = s.compH := by
  have hlog := readByte_some_log s _ _ b s1 w1 hid
  have hl : (s.begin w).2.2.log = w.log ++
      [WireCall.status,
       WireCall.beginTransmission s.address, WireCall.write BME280_REG_ID,
       WireCall.endTransmission, WireCall.beginTransmission s.address,
       WireCall.requestFrom s.address 1, WireCall.endTransmission, WireCall.read] := by
    rw [begin_mismatch s w b s1 w1 hbus hid hne]
    dsimp only
    rw [hlog]
    simp only [TwoWire.call, List.append_assoc, List.singleton_append]
  refine ⟨?_, ?_, hl, ?_, ?_, ?_, ?_⟩
  · rw [begin_mismatch s w b s1 w1 hbus hid hne]
  · rw [begin_mismatch s w b s1 w1 hbus hid hne]; rfl
  · rw [hl, List.drop_left]
    simp [BME280_REG_ID]
  · rw [begin_mismatch s w b s1 w1 hbus hid hne]
  · rw [begin_mismatch s w b s1 w1 hbus hid hne]
  · rw [begin_mismatch s w b s1 w1 hbus hid hne]

theorem constBus_identity (b : Nat) (s : Bme280) :
    s.readByte ((constBus b).call WireCall.status).2 BME280_REG_ID =
      (some (b % 256), s,
        (s.readByte ((constBus b).call WireCall.status).2 BME280_REG_ID).2.2) := rfl

theorem identity_mismatch_witness :
    ((constBus 0x58).call WireCall.status).1 % 256 = 0 ∧
    exSession.readByte ((constBus 0x58).call WireCall.status).2 BME280_REG_ID =
      (some 0x58, exSession,
        (exSession.readByte ((constBus 0x58).call WireCall.status).2 BME280_REG_ID).2.2) ∧
    (0x58 : Nat) ≠ 0x60 ∧
    (exSession.begin (constBus 0x58)).1 = false ∧
    (exSession.begin (constBus 0x58)).2.1.error = 0x20 :=
  have g := identity_mismatch exSession (constBus 0x58) 0x58 exSession _ rfl
    (constBus_identity 0x58 exSession) (by decide)
  ⟨rfl, constBus_identity 0x58 exSession, by decide, g.1, g.2.1⟩

/-! ## Humidity output range -/

theorem humClamp_range (v : Int) : 0 ≤ humClamp v ∧ humClamp v ≤ 419430400 := by
  unfold humClamp
  dsimp only
  split_ifs <;> omega

theorem humidityNum_le (v : Int) : humidityNum v ≤ 102400 := by
  have h := humClamp_range v
  unfold humidityNum asr
  rw [Int.shiftRight_eq_div_pow]
  omega

/-- C16: for every burst and every coefficient set the humidity numerator
computed by `read()` (the clamped `var1` shifted right by 12) is at most 102400
(and, being unsigned, at least 0), so the reported humidity `numerator / 1024`
lies in `[0, 100]`. -/
theorem humidity_output_range (s : Bme280) (data : List Nat) :
    (∀ (h : compHumid_t) (H1 : Nat) (tf humi : Int),
      humidityNum (humVar1 h H1 tf humi) ≤ 102400) ∧
    ∃ r, s.convert data = some r ∧ r.humidity ≤ 102400 ∧
      0 ≤ humidityValue r.humidity ∧ humidityValue r.humidity ≤ 100 := by
  refine ⟨fun h H1 tf humi => humidityNum_le _, ?_⟩
  obtain ⟨p, r, _, hc, _, _, hh, _⟩ := convert_total s data
  have hle : r.humidity ≤ 102400 := by rw [hh]; exact humidityNum_le _
  refine ⟨r, hc, hle, ?_, ?_⟩
  · unfold humidityValue
    exact div_nonneg (Nat.cast_nonneg _) (by norm_num)
  · unfold humidityValue
    have hq : (r.humidity : ℚ) ≤ 102400 := by exact_mod_cast hle
    clear hh hc
    rw [div_le_iff₀ (by norm_num)]
    linarith

/-! ## The bit-field decode is lossless -/

theorem nibble_pack (a n : Nat) (hn : n < 16) : a <<< 4 ||| n = 16 * a + n := by
  have h := Nat.mul_add_lt_is_or (i := 4) (b := n) (by omega) a
  rw [Nat.shiftLeft_eq, Nat.mul_comm]
  exact h.symm

theorem and_15 (x : Nat) : x &&& 15 = x % 16 :=
  Nat.and_pow_two_sub_one_eq_mod x 4

theorem nibble_unpack (b3 b4 b5 : Nat) (h4 : b4 < 256) :
    b3 <<< 4 ||| (b4 &&& 15) = 16 * b3 + b4 % 16 ∧
    b5 <<< 4 ||| b4 >>> 4 = 16 * b5 + b4 / 16 := by
  have hhigh : b4 >>> 4 = b4 / 16 := Nat.shiftRight_eq_div_pow b4 4
  constructor
  · rw [and_15, nibble_pack _ _ (Nat.mod_lt _ (by decide))]
  · rw [hhigh, nibble_pack _ _ (by omega)]

theorem nibble_join (x y : Nat) (hx : x < 16) : x ||| y <<< 4 = 16 * y + x := by
  rw [Nat.or_comm, nibble_pack y x hx]

/-- C20: for all bytes `b3`, `b4`, `b5` of a humidity block, the H4 and H5 that
lines 57-64 of `begin()` store lie in `[0, 4095]`, and the bytes are recovered
by `b3 = H4 >> 4`, `b5 = H5 >> 4` and `b4 = (H4 & 0x0F) | ((H5 & 0x0F) << 4)`. -/
theorem humidity_decode_lossless (a0 a1 a2 b3 b4 b5 b6 a7 a8 a9 : Nat)
    (h0 : a0 < 256) (h1 : a1 < 256) (h2 : a2 < 256) (h3 : b3 < 256) (h4 : b4 < 256)
    (h5 : b5 < 256) (h6 : b6 < 256) (h7 : a7 < 256) (h8 : a8 < 256) (h9 : a9 < 256) :
    ∃ H4 H5 : Nat,
      (compTableH_var (Bme280.unpackHumid [a0, a1, a2, b3, b4, b5, b6, a7, a8, a9])).H4 =
        (H4 : Int) ∧
      (compTableH_var (Bme280.unpackHumid [a0, a1, a2, b3, b4, b5, b6, a7, a8, a9])).H5 =
        (H5 : Int) ∧
      H4 ≤ 4095 ∧ H5 ≤ 4095 ∧
      b3 = H4 >>> 4 ∧ b5 = H5 >>> 4 ∧ b4 = (H4 &&& 0x0F) ||| ((H5 &&& 0x0F) <<< 4) := by
  have hb : ∀ b ∈ [a0, a1, a2, b3, b4, b5, b6, a7, a8, a9], b < 256 := by
    intro b hb
    simp only [List.mem_cons, List.mem_singleton, List.not_mem_nil, or_false] at hb
    rcases hb with h | h | h | h | h | h | h | h | h | h <;> (subst h; assumption)
  have hv := unpackHumid_var [a0, a1, a2, b3, b4, b5, b6, a7, a8, a9] rfl hb
  simp only [byteAt_succ, byteAt_zero] at hv
  obtain ⟨e4, e5⟩ := nibble_unpack b3 b4 b5 h4
  refine ⟨b3 <<< 4 ||| (b4 &&& 15), b5 <<< 4 ||| b4 >>> 4, hv.1, hv.2.1, ?_, ?_, ?_, ?_, ?_⟩
  · rw [e4]; omega
  · rw [e5]; omega
  · rw [e4, Nat.shiftRight_eq_div_pow]; omega
  · rw [e5, Nat.shiftRight_eq_div_pow]; omega
  · rw [e4, e5, and_15, and_15, nibble_join _ _ (Nat.mod_lt _ (by decide))]
    omega

theorem humidity_decode_lossless_witness :
    ∃ H4 H5 : Nat,
      (compTableH_var (Bme280.unpackHumid [0, 0, 0, 0x12, 0x34, 0x56, 0x80, 0, 0, 0])).H4 =
        (H4 : Int) ∧
      (compTableH_var (Bme280.unpackHumid [0, 0, 0, 0x12, 0x34, 0x56, 0x80, 0, 0, 0])).H5 =
        (H5 : Int) ∧
      H4 ≤ 4095 ∧ H5 ≤ 4095 ∧
      0x12 = H4 >>> 4 ∧ 0x56 = H5 >>> 4 ∧ 0x34 = (H4 &&& 0x0F) ||| ((H5 &&& 0x0F) <<< 4) :=
  humidity_decode_lossless 0 0 0 0x12 0x34 0x56 0x80 0 0 0 (by decide) (by decide) (by decide)
    (by decide) (by decide) (by decide) (by decide) (by decide) (by decide) (by decide)

/-! ## Stale write error -/

theorem sendByte_stale (s : Bme280) (w : TwoWire) (reg data : Nat)
    (h : s.error = BME280_ERROR_I2C_WRITE) : (s.sendByte w reg data).1 = false := by
  unfold Bme280.sendByte
  dsimp only
  split_ifs <;> first | rfl | (exfalso; simp_all)

theorem readTable_stale (s : Bme280) (w : TwoWire) (reg len : Nat) (data : List Nat)
    (h : s.error = BME280_ERROR_I2C_WRITE) : (s.readTable w reg len data).1 = false := by
  unfold Bme280.readTable
  dsimp only
  split_ifs <;> first | rfl | (exfalso; simp_all)

theorem configure_stale (s : Bme280) (w : TwoWire) (a b c : Nat)
    (h : s.error = BME280_ERROR_I2C_WRITE) : (s.configure w a b c).1 = false := by
  unfold Bme280.configure
  dsimp only
  rw [sendByte_stale s w _ _ h]
  rfl

theorem measure_stale (s : Bme280) (w : TwoWire)
    (h : s.error = BME280_ERROR_I2C_WRITE) : (s.measure w).1 = false := by
  unfold Bme280.measure
  generalize hrb : s.readByte w BME280_REG_CTRL_MEAS = rb
  obtain ⟨o, s1, w1⟩ := rb
  cases o with
  | none => rfl
  | some d =>
    have hs := readByte_some s w _ d s1 w1 hrb
    subst hs
    dsimp only
    rw [sendByte_stale s1 w1 _ _ h]
    rfl

theorem continuous_stale (s : Bme280) (w : TwoWire)
    (h : s.error = BME280_ERROR_I2C_WRITE) : (s.continuous w).1 = false := by
  unfold Bme280.continuous
  generalize hrb : s.readByte w BME280_REG_CTRL_MEAS = rb
  obtain ⟨o, s1, w1⟩ := rb
  cases o with
  | none => rfl
  | some d =>
    have hs := readByte_some s w _ d s1 w1 hrb
    subst hs
    dsimp only
    rw [sendByte_stale s1 w1 _ _ h]
    rfl

theorem beginReset_stale (s : Bme280) (w : TwoWire)
    (h : s.error = BME280_ERROR_I2C_WRITE) : (s.beginReset w).1 = false := by
  unfold Bme280.beginReset
  dsimp only
  rw [sendByte_stale s w _ _ h]
  rfl

theorem begin_stale (s : Bme280) (w : TwoWire)
    (h : s.error = BME280_ERROR_I2C_WRITE) : (s.begin w).1 = false := by
  unfold Bme280.begin
  dsimp only
  split
  · rfl
  · generalize hrb : s.readByte (w.call WireCall.status).2 BME280_REG_ID = rb
    obtain ⟨o, s1, w1⟩ := rb
    cases o with
    | none => rfl
    | some d =>
      have hs := readByte_some s _ _ d s1 w1 hrb
      subst hs
      dsimp only
      split
      · exact beginReset_stale s1 w1 h
      · rfl

theorem read_stale (s : Bme280) (w : TwoWire)
    (h : s.error = BME280_ERROR_I2C_WRITE) : ∃ r, s.read w = some r ∧ r.1 = false := by
  have ht := readTable_stale s w BME280_REG_PRES_MSB 8 (List.replicate 8 0) h
  unfold Bme280.read
  dsimp only
  rw [ht]
  exact ⟨_, rfl, rfl⟩

/-- C18: if the error field equals the generic bus-write failure (2) on entry,
`sendByte` and `readTable` return failure on every bus, and so do `begin()`,
`configure()`, `measure()`, `continuous()` and `read()`. -/
theorem stale_write_error (s : Bme280) (w : TwoWire) (h : s.error = 2) :
    (∀ reg data, (s.sendByte w reg data).1 = false) ∧
    (∀ reg len data, (s.readTable w reg len data).1 = false) ∧
    (s.begin w).1 = false ∧
    (∀ humid pres_temp config, (s.configure w humid pres_temp config).1 = false) ∧
    (s.measure w).1 = false ∧
    (s.continuous w).1 = false ∧
    (∃ r, s.read w = some r ∧ r.1 = false) :=
  ⟨fun reg data => sendByte_stale s w reg data h,
   fun reg len data => readTable_stale s w reg len data h,
   begin_stale s w h, fun a b c => configure_stale s w a b c h, measure_stale s w h,
   continuous_stale s w h, read_stale s w h⟩

theorem stale_write_error_witness :
    staleSession.error = 2 ∧
    (∀ reg data, (staleSession.sendByte goodBus reg data).1 = false) ∧
    (∀ reg len data, (staleSession.readTable goodBus reg len data).1 = false) ∧
    (staleSession.begin goodBus).1 = false ∧
    (∀ humid pres_temp config, (staleSession.configure goodBus humid pres_temp config).1 = false) ∧
    (staleSession.measure goodBus).1 = false ∧
    (staleSession.continuous goodBus).1 = false ∧
    (∃ r, staleSession.read goodBus = some r ∧ r.1 = false) :=
  ⟨rfl, stale_write_error staleSession goodBus rfl⟩

/-! ## Mode read-modify-write -/

theorem mode_bits : ∀ d, d < 256 →
    (d &&& 0xFC) >>> 2 = d >>> 2 ∧ (d &&& 0xFC) &&& 3 = 0 ∧
    ((d &&& 0xFC) ||| 0x02) >>> 2 = d >>> 2 ∧ ((d &&& 0xFC) ||| 0x02) &&& 3 = 2 ∧
    (d ||| 0x03) >>> 2 = d >>> 2 ∧ (d ||| 0x03) &&& 3 = 3 := by
  intro d hd
  interval_cases d <;> decide

theorem readByte_some_lt (s : Bme280) (w : TwoWire) (reg b : Nat) (s1 : Bme280)
    (w1 : TwoWire) (h : s.readByte w reg = (some b, s1, w1)) : b < 256 := by
  unfold Bme280.readByte at h
  dsimp only at h
  split_ifs at h
  all_goals first
    | exact Option.noConfusion (congrArg Prod.fst h)
    | (have hb := congrArg Prod.fst h
       dsimp only at hb
       rw [← Option.some.inj hb]
       exact Nat.mod_lt _ (by decide))

theorem sendByte_log (s : Bme280) (w : TwoWire) (reg data : Nat) :
    (s.sendByte w reg data).2.2.log = w.log ++
      [WireCall.beginTransmission s.address, WireCall.write reg, WireCall.write data,
       WireCall.endTransmission] := by
  unfold Bme280.sendByte
  dsimp only
  split_ifs <;>
    simp only [TwoWire.call, List.append_assoc, List.singleton_append, List.cons_append,
      List.nil_append]

theorem standby_some (s : Bme280) (w : TwoWire) (d : Nat) (s1 : Bme280) (w1 : TwoWire)
    (h : s.readByte w BME280_REG_CTRL_MEAS = (some d, s1, w1)) :
    s.standby w = (true, (s.sendByte w1 BME280_REG_CTRL_MEAS (d &&& 0xFC)).2.1,
      (s.sendByte w1 BME280_REG_CTRL_MEAS (d &&& 0xFC)).2.2) := by
  have hs := readByte_some s w _ d s1 w1 h
  subst hs
  unfold Bme280.standby
  rw [h]

theorem measure_some (s : Bme280) (w : TwoWire) (d : Nat) (s1 : Bme280) (w1 : TwoWire)
    (h : s.readByte w BME280_REG_CTRL_MEAS = (some d, s1, w1)) :
    (s.measure w).2.2 = (s.sendByte w1 BME280_REG_CTRL_MEAS ((d &&& 0xFC) ||| 0x02)).2.2 ∧
    (s.measure w).1 = (s.sendByte w1 BME280_REG_CTRL_MEAS ((d &&& 0xFC) ||| 0x02)).1 := by
  have hs := readByte_some s w _ d s1 w1 h
  subst hs
  unfold Bme280.measure
  rw [h]
  dsimp only
  split
  · rename_i hf
    exact ⟨rfl, (Bool.eq_false_iff.mpr hf).symm⟩
  · rename_i hf
    exact ⟨rfl, (not_not.mp hf).symm⟩

theorem continuous_some (s : Bme280) (w : TwoWire) (d : Nat) (s1 : Bme280) (w1 : TwoWire)
    (h : s.readByte w BME280_REG_CTRL_MEAS = (some d, s1, w1)) :
    (s.continuous w).2.2 = (s.sendByte w1 BME280_REG_CTRL_MEAS (d ||| 0x03)).2.2 ∧
    (s.continuous w).1 = (s.sendByte w1 BME280_REG_CTRL_MEAS (d ||| 0x03)).1 := by
  have hs := readByte_some s w _ d s1 w1 h
  subst hs
  unfold Bme280.continuous
  rw [h]
  dsimp only
  split
  · rename_i hf
    exact ⟨rfl, (Bool.eq_false_iff.mpr hf).symm⟩
  · rename_i hf
    exact ⟨rfl, (not_not.mp hf).symm⟩

theorem mode_none (s : Bme280) (w : TwoWire) (s1 : Bme280) (w1 : TwoWire)
    (h : s.readByte w BME280_REG_CTRL_MEAS = (none, s1, w1)) :
    (s.standby w).1 = false ∧ (s.standby w).2.2 = w1 ∧
    (s.measure w).1 = false ∧ (s.measure w).2.2 = w1 ∧
    (s.continuous w).1 = false ∧ (s.continuous w).2.2 = w1 := by
  unfold Bme280.standby Bme280.measure Bme280.continuous
  rw [h]
  exact ⟨rfl, rfl, rfl, rfl, rfl, rfl⟩

theorem readByte_none_log (s : Bme280) (w : TwoWire) (reg : Nat) (s1 : Bme280)
    (w1 : TwoWire) (h : s.readByte w reg = (none, s1, w1)) :
    w1.log = w.log ++ [WireCall.beginTransmission s.address, WireCall.write reg] ∨
    w1.log = w.log ++
      [WireCall.beginTransmission s.address, WireCall.write reg, WireCall.endTransmission,
       WireCall.beginTransmission s.address, WireCall.requestFrom s.address 1,
       WireCall.endTransmission] := by
  unfold Bme280.readByte at h
  dsimp only at h
  split_ifs at h
  · left
    have hw := congrArg (fun x => x.2.2) h
    dsimp only at hw
    rw [← hw]
    simp only [TwoWire.call, List.append_assoc, List.singleton_append, List.cons_append,
      List.nil_append]
  · right
    have hw := congrArg (fun x => x.2.2) h
    dsimp only at hw
    rw [← hw]
    simp only [TwoWire.call, List.append_assoc, List.singleton_append, List.cons_append,
      List.nil_append]
  · exact Option.noConfusion (congrArg Prod.fst h)

/-- C13: for every control-register byte `d` read back successfully, `standby()`
writes `d & 0xFC`, `measure()` writes `(d & 0xFC) | 0x02` and `continuous()`
writes `d | 0x03` to the control register 0xF4 that was read; the upper six bits
of the written byte are those of `d` and its low two bits are 00, 10 and 11; and
if the read fails, each of them returns false with the bus as the failed read
left it, whose only `write` call is the register pointer of that read. -/
theorem mode_read_modify_write (s : Bme280) (w : TwoWire) :
    (∀ d s1 w1, s.readByte w BME280_REG_CTRL_MEAS = (some d, s1, w1) →
      w1.log = w.log ++
        [WireCall.beginTransmission s.address, WireCall.write 0xF4, WireCall.endTransmission,
         WireCall.beginTransmission s.address, WireCall.requestFrom s.address 1,
         WireCall.endTransmission, WireCall.read] ∧
      (s.standby w).2.2.log = w1.log ++
        [WireCall.beginTransmission s.address, WireCall.write 0xF4,
         WireCall.write (d &&& 0xFC), WireCall.endTransmission] ∧
      (s.measure w).2.2.log = w1.log ++
        [WireCall.beginTransmission s.address, WireCall.write 0xF4,
         WireCall.write ((d &&& 0xFC) ||| 0x02), WireCall.endTransmission] ∧
      (s.continuous w).2.2.log = w1.log ++
        [WireCall.beginTransmission s.address, WireCall.write 0xF4,
         WireCall.write (d ||| 0x03), WireCall.endTransmission] ∧
      (d &&& 0xFC) >>> 2 = d >>> 2 ∧ (d &&& 0xFC) &&& 3 = 0 ∧
      ((d &&& 0xFC) ||| 0x02) >>> 2 = d >>> 2 ∧ ((d &&& 0xFC) ||| 0x02) &&& 3 = 2 ∧
      (d ||| 0x03) >>> 2 = d >>> 2 ∧ (d ||| 0x03) &&& 3 = 3) ∧
    (∀ s1 w1, s.readByte w BME280_REG_CTRL_MEAS = (none, s1, w1) →
      (s.standby w).1 = false ∧ (s.standby w).2.2 = w1 ∧
      (s.measure w).1 = false ∧ (s.measure w).2.2 = w1 ∧
      (s.continuous w).1 = false ∧ (s.continuous w).2.2 = w1 ∧
      (w1.log = w.log ++ [WireCall.beginTransmission s.address, WireCall.write 0xF4] ∨
       w1.log = w.log ++
        [WireCall.beginTransmission s.address, WireCall.write 0xF4,
         WireCall.endTransmission, WireCall.beginTransmission s.address,
         WireCall.requestFrom s.address 1, WireCall.endTransmission])) := by
  constructor
  · intro d s1 w1 h
    have hs := readByte_some s w _ d s1 w1 h
    have hlt := readByte_some_lt s w _ d s1 w1 h
    refine ⟨readByte_some_log s w _ d s1 w1 h, ?_, ?_, ?_, mode_bits d hlt⟩
    · rw [standby_some s w d s1 w1 h]
      exact sendByte_log s w1 _ _
    · rw [(measure_some s w d s1 w1 h).1]
      exact sendByte_log s w1 _ _
    · rw [(continuous_some s w d s1 w1 h).1]
      exact sendByte_log s w1 _ _
  · intro s1 w1 h
    obtain ⟨a1, a2, a3, a4, a5, a6⟩ := mode_none s w s1 w1 h
    exact ⟨a1, a2, a3, a4, a5, a6, readByte_none_log s w _ s1 w1 h⟩

theorem constBus_readByte (b reg : Nat) (s : Bme280) :
    s.readByte (constBus b) reg =
      (some (b % 256), s, (s.readByte (constBus b) reg).2.2) := rfl

theorem deadBus_readByte (reg : Nat) (s : Bme280) :
    s.readByte deadBus reg =
      (none, (s.readByte deadBus reg).2.1, (s.readByte deadBus reg).2.2) := rfl

theorem mode_read_modify_write_witness :
    exSession.readByte (constBus 0x27) BME280_REG_CTRL_MEAS =
      (some 0x27, exSession, (exSession.readByte (constBus 0x27) BME280_REG_CTRL_MEAS).2.2) ∧
    (exSession.standby (constBus 0x27)).2.2.log =
      (exSession.readByte (constBus 0x27) BME280_REG_CTRL_MEAS).2.2.log ++
        [WireCall.beginTransmission exSession.address, WireCall.write 0xF4,
         WireCall.write (0x27 &&& 0xFC), WireCall.endTransmission] ∧
    exSession.readByte deadBus BME280_REG_CTRL_MEAS =
      (none, (exSession.readByte deadBus BME280_REG_CTRL_MEAS).2.1,
        (exSession.readByte deadBus BME280_REG_CTRL_MEAS).2.2) ∧
    (exSession.standby deadBus).1 = false ∧
    (exSession.standby deadBus).2.2 = (exSession.readByte deadBus BME280_REG_CTRL_MEAS).2.2 :=
  have g := mode_read_modify_write exSession (constBus 0x27)
  have k := mode_read_modify_write exSession deadBus
  have g1 := g.1 0x27 exSession _ (constBus_readByte 0x27 BME280_REG_CTRL_MEAS exSession)
  have k1 := k.2 _ _ (deadBus_readByte BME280_REG_CTRL_MEAS exSession)
  ⟨constBus_readByte 0x27 BME280_REG_CTRL_MEAS exSession, g1.2.1,
    deadBus_readByte BME280_REG_CTRL_MEAS exSession, k1.1, k1.2.1⟩

/-! ## No partial block data -/

theorem readTable_false_data (s : Bme280) (w : TwoWire) (reg len : Nat) (data : List Nat)
    (h : (s.readTable w reg len data).1 = false) : (s.readTable w reg len data).2.1 = data := by
  unfold Bme280.readTable at h ⊢
  dsimp only at h ⊢
  split_ifs at h ⊢
  all_goals rfl

theorem readTable_short (s : Bme280) (w : TwoWire) (reg len : Nat) (data : List Nat)
    (hw : w.respond (w.log ++ [WireCall.beginTransmission s.address]) (WireCall.write reg) = 1)
    (he : s.error ≠ BME280_ERROR_I2C_WRITE)
    (hc : w.respond (w.log ++ [WireCall.beginTransmission s.address, WireCall.write reg,
        WireCall.endTransmission, WireCall.beginTransmission s.address])
        (WireCall.requestFrom s.address len) % 256 ≠ len) :
    (s.readTable w reg len data).1 = false ∧
    (s.readTable w reg len data).2.1 = data ∧
    (s.readTable w reg len data).2.2.1 = { s with error := BME280_ERROR_I2C_READ } := by
  unfold Bme280.readTable
  simp only [TwoWire.call, List.append_assoc, List.singleton_append, List.cons_append,
    List.nil_append, hw, ne_eq, not_true_eq_false, if_false, he, hc, not_false_eq_true, if_true,
    and_self]

theorem read_false_frame (s : Bme280) (w : TwoWire) :
    ∃ r, s.read w = some r ∧ (r.1 = false → sameButError s r.2.1) := by
  have hf := readTable_frame s w BME280_REG_PRES_MSB 8 (List.replicate 8 0)
  unfold Bme280.read
  generalize s.readTable w BME280_REG_PRES_MSB 8 (List.replicate 8 0) = t at hf
  obtain ⟨b, d, s1, w1⟩ := t
  cases b
  · exact ⟨(false, s1, w1), by simp, fun _ => hf⟩
  · obtain ⟨p, r, _, hc, _⟩ := convert_total s1 d
    exact ⟨(true, r, w1), by simp [hc], fun h => Bool.noConfusion h⟩

/-- C15: for every requested length, when the request that `readTable` issues
(the register pointer was acknowledged and no write error is latched) completes
with a count different from that length, `readTable` returns false with error 1
and the caller's buffer as it was; the buffer is untouched in every failing
case; and a failed `read()` leaves temperature, pressure and humidity
unchanged. -/
theorem no_partial_block (s : Bme280) (w : TwoWire) (reg len : Nat) (data : List Nat)
    (hw : w.respond (w.log ++ [WireCall.beginTransmission s.address]) (WireCall.write reg) = 1)
    (he : s.error ≠ BME280_ERROR_I2C_WRITE)
    (hc : w.respond (w.log ++ [WireCall.beginTransmission s.address, WireCall.write reg,
        WireCall.endTransmission, WireCall.beginTransmission s.address])
        (WireCall.requestFrom s.address len) % 256 ≠ len) :
    (s.readTable w reg len data).1 = false ∧
    (s.readTable w reg len data).2.2.1.error = 1 ∧
    (s.readTable w reg len data).2.1 = data ∧
    (∀ (s0 : Bme280) (w0 : TwoWire) (reg0 len0 : Nat) (data0 : List Nat),
      (s0.readTable w0 reg0 len0 data0).1 = false →
      (s0.readTable w0 reg0 len0 data0).2.1 = data0) ∧
    (∀ (s0 : Bme280) (w0 : TwoWire), ∃ r, s0.read w0 = some r ∧
      (r.1 = false → r.2.1.temperature = s0.temperature ∧ r.2.1.pressure = s0.pressure ∧
        r.2.1.humidity = s0.humidity)) := by
  obtain ⟨h1, h2, h3⟩ := readTable_short s w reg len data hw he hc
  refine ⟨h1, by rw [h3]; rfl, h2, readTable_false_data, ?_⟩
  intro s0 w0
  obtain ⟨r, hr, hf⟩ := read_false_frame s0 w0
  exact ⟨r, hr, fun h => ⟨(hf h).2.2.2.2.1, (hf h).2.2.2.2.2.1, (hf h).2.2.2.2.2.2⟩⟩

theorem no_partial_block_witness :
    (shortBus 8).respond ((shortBus 8).log ++ [WireCall.beginTransmission exSession.address])
      (WireCall.write BME280_REG_PRES_MSB) = 1 ∧
    exSession.error ≠ BME280_ERROR_I2C_WRITE ∧
    (shortBus 8).respond ((shortBus 8).log ++ [WireCall.beginTransmission exSession.address,
        WireCall.write BME280_REG_PRES_MSB, WireCall.endTransmission,
        WireCall.beginTransmission exSession.address])
        (WireCall.requestFrom exSession.address 8) % 256 ≠ 8 ∧
    (exSession.readTable (shortBus 8) BME280_REG_PRES_MSB 8 (exBurst 1 2)).1 = false ∧
    (exSession.readTable (shortBus 8) BME280_REG_PRES_MSB 8 (exBurst 1 2)).2.2.1.error = 1 ∧
    (exSession.readTable (shortBus 8) BME280_REG_PRES_MSB 8 (exBurst 1 2)).2.1 = exBurst 1 2 :=
  have g := no_partial_block exSession (shortBus 8) BME280_REG_PRES_MSB 8 (exBurst 1 2) rfl
    (by decide) (by decide)
  ⟨rfl, by decide, by decide, g.1, g.2.1, g.2.2.1⟩

/-! ## Failures of `begin()` -/

theorem beginHumid_false (s : Bme280) (w : TwoWire) (h : (s.beginHumid w).1 = false) :
    (s.beginHumid w).2.1.error = BME280_ERROR_NO_TABLE ∧ sameButError s (s.beginHumid w).2.1 := by
  have hf := readTable_frame s w BME280_REG_COMP_H2_MSB sizeofCompHumid s.compH
  have hd := readTable_false_data s w BME280_REG_COMP_H2_MSB sizeofCompHumid s.compH
  unfold Bme280.beginHumid at h ⊢
  dsimp only at h ⊢
  split_ifs at h ⊢ with h1
  · obtain ⟨a1, a2, a3, a4, a5, a6, a7⟩ := hf
    exact ⟨rfl, a1, a2, a3, hd (by simpa using h1), a5, a6, a7⟩

theorem beginH1_false (s : Bme280) (w : TwoWire) (h : (s.beginH1 w).1 = false) :
    (s.beginH1 w).2.1.compensation = s.compensation ∧ (s.beginH1 w).2.1.compH = s.compH ∧
    ((s.readByte w BME280_REG_COMP_H1).1 = none → (s.beginH1 w).2.1.H1 = s.H1) ∧
    (∀ b, (s.readByte w BME280_REG_COMP_H1).1 = some b → (s.beginH1 w).2.1.H1 = b) := by
  unfold Bme280.beginH1 at h ⊢
  generalize hrb : s.readByte w BME280_REG_COMP_H1 = rb at h ⊢
  obtain ⟨o, s1, w1⟩ := rb
  have hf := readByte_frame s w BME280_REG_COMP_H1
  rw [hrb] at hf
  cases o with
  | none =>
    exact ⟨hf.2.1, hf.2.2.2.1, fun _ => hf.2.2.1, fun b hb => Option.noConfusion hb⟩
  | some b =>
    dsimp only at h ⊢
    obtain ⟨_, g⟩ := beginHumid_false _ _ h
    refine ⟨g.2.1.trans hf.2.1, g.2.2.2.1.trans hf.2.2.2.1,
      fun hn => Option.noConfusion hn, ?_⟩
    intro b2 hb2
    have e : b = b2 := Option.some.inj hb2
    rw [← e]
    exact g.2.2.1

theorem beginTable_cases (s : Bme280) (w : TwoWire) :
    ((s.readTable w BME280_REG_COMP_TABLE sizeofCompData s.compensation).1 = false →
      (s.beginTable w).1 = false ∧ sameButError s (s.beginTable w).2.1) ∧
    ((s.readTable w BME280_REG_COMP_TABLE sizeofCompData s.compensation).1 = true →
      s.beginTable w =
        Bme280.beginH1
          { (s.readTable w BME280_REG_COMP_TABLE sizeofCompData s.compensation).2.2.1 with
            compensation :=
              (s.readTable w BME280_REG_COMP_TABLE sizeofCompData s.compensation).2.1 }
          (s.readTable w BME280_REG_COMP_TABLE sizeofCompData s.compensation).2.2.2) := by
  have hf := readTable_frame s w BME280_REG_COMP_TABLE sizeofCompData s.compensation
  have hd := readTable_false_data s w BME280_REG_COMP_TABLE sizeofCompData s.compensation
  unfold Bme280.beginTable
  dsimp only
  constructor
  · intro h1
    rw [if_pos (by rw [h1]; decide)]
    obtain ⟨a1, a2, a3, a4, a5, a6, a7⟩ := hf
    exact ⟨rfl, a1, hd h1, a3, a4, a5, a6, a7⟩
  · intro h1
    rw [if_neg (by rw [h1]; decide)]

theorem begin_primaryRead (s : Bme280) (w : TwoWire) :
    (s.primaryRead w = none → (s.begin w).1 = false ∧ sameButError s (s.begin w).2.1) ∧
    (∀ t, s.primaryRead w = some t →
      ∃ (s1 : Bme280) (w1 : TwoWire), sameButError s s1 ∧
        t = s1.readTable w1 BME280_REG_COMP_TABLE sizeofCompData s1.compensation ∧
        s.begin w = s1.beginTable w1) := by
  unfold Bme280.primaryRead Bme280.begin
  dsimp only
  split
  · exact ⟨fun _ => ⟨rfl, sameButError_refl s⟩, fun t ht => Option.noConfusion ht⟩
  · generalize hrb : s.readByte (w.call WireCall.status).2 BME280_REG_ID = rb
    obtain ⟨o, s1, w1⟩ := rb
    have hf := readByte_frame s (w.call WireCall.status).2 BME280_REG_ID
    rw [hrb] at hf
    cases o with
    | none => exact ⟨fun _ => ⟨rfl, hf⟩, fun t ht => Option.noConfusion ht⟩
    | some b =>
      dsimp only
      split
      · have hs := sendByte_frame s1 w1 BME280_REG_RESET 0xB6
        unfold Bme280.beginReset
        dsimp only
        split
        · exact ⟨fun _ => ⟨rfl, sameButError_trans _ _ _ hf hs⟩,
            fun t ht => Option.noConfusion ht⟩
        · refine ⟨fun hn => Option.noConfusion hn, ?_⟩
          intro t ht
          exact ⟨_, _, sameButError_trans _ _ _ hf hs, (Option.some.inj ht).symm, rfl⟩
      · exact ⟨fun _ => ⟨rfl, hf⟩, fun t ht => Option.noConfusion ht⟩

theorem h1Read_some (s : Bme280) (w : TwoWire) (r : Option Nat × Bme280 × TwoWire)
    (h : s.h1Read w = some r) :
    ∃ t, s.primaryRead w = some t ∧ t.1 = true ∧
      r = Bme280.readByte { t.2.2.1 with compensation := t.2.1 } t.2.2.2 BME280_REG_COMP_H1 := by
  unfold Bme280.h1Read at h
  cases hp : s.primaryRead w with
  | none => rw [hp] at h; exact Option.noConfusion h
  | some t =>
    rw [hp] at h
    dsimp only at h
    split at h
    · exact Option.noConfusion h
    · rename_i ht
      exact ⟨t, rfl, not_not.mp ht, (Option.some.inj h).symm⟩

theorem begin_false_run (s : Bme280) (w : TwoWire) (h : (s.begin w).1 = false) :
    (s.begin w).2.1.compH = s.compH ∧
    ((∀ t, s.primaryRead w = some t → t.1 = false) →
      (s.begin w).2.1.compensation = s.compensation ∧ (s.begin w).2.1.H1 = s.H1) ∧
    (∀ t, s.primaryRead w = some t → t.1 = true →
      s.begin w = Bme280.beginH1 { t.2.2.1 with compensation := t.2.1 } t.2.2.2 ∧
      (s.begin w).2.1.compensation = t.2.1) ∧
    (∀ r, s.h1Read w = some r →
      (r.1 = none → (s.begin w).2.1.H1 = s.H1) ∧
      (∀ b, r.1 = some b → (s.begin w).2.1.H1 = b)) := by
  obtain ⟨hnone, hsome⟩ := begin_primaryRead s w
  have key : ∀ t, s.primaryRead w = some t → t.1 = true →
      s.begin w = Bme280.beginH1 { t.2.2.1 with compensation := t.2.1 } t.2.2.2 ∧
      (s.begin w).2.1.compensation = t.2.1 ∧ (s.begin w).2.1.compH = s.compH ∧
      ((Bme280.readByte { t.2.2.1 with compensation := t.2.1 } t.2.2.2
          BME280_REG_COMP_H1).1 = none → (s.begin w).2.1.H1 = s.H1) ∧
      (∀ b, (Bme280.readByte { t.2.2.1 with compensation := t.2.1 } t.2.2.2
          BME280_REG_COMP_H1).1 = some b → (s.begin w).2.1.H1 = b) := by
    intro t ht h1
    obtain ⟨s1, w1, hs1, et, eb⟩ := hsome t ht
    have hft := readTable_frame s1 w1 BME280_REG_COMP_TABLE sizeofCompData s1.compensation
    rw [← et] at hft
    have hb : s.begin w = Bme280.beginH1 { t.2.2.1 with compensation := t.2.1 } t.2.2.2 := by
      rw [eb, (beginTable_cases s1 w1).2 (by rw [← et]; exact h1), ← et]
    have hfail : (Bme280.beginH1 { t.2.2.1 with compensation := t.2.1 } t.2.2.2).1 = false := by
      rw [← hb]; exact h
    obtain ⟨c1, c2, c3, c4⟩ := beginH1_false _ _ hfail
    rw [← hb] at c1 c2 c3 c4
    refine ⟨hb, c1, ?_, ?_, c4⟩
    · rw [c2]
      exact hft.2.2.2.1.trans hs1.2.2.2.1
    · intro hn
      rw [c3 hn]
      exact hft.2.2.1.trans hs1.2.2.1
  refine ⟨?_, ?_, fun t ht h1 => ⟨(key t ht h1).1, (key t ht h1).2.1⟩, ?_⟩
  · cases hp : s.primaryRead w with
    | none => exact (hnone hp).2.2.2.2.1
    | some t =>
      cases h1 : t.1 with
      | true => exact (key t hp h1).2.2.1
      | false =>
        obtain ⟨s1, w1, hs1, et, eb⟩ := hsome t hp
        have g := ((beginTable_cases s1 w1).1 (by rw [← et]; exact h1)).2
        rw [eb]
        exact g.2.2.2.1.trans hs1.2.2.2.1
  · intro hall
    cases hp : s.primaryRead w with
    | none => exact ⟨(hnone hp).2.2.1, (hnone hp).2.2.2.1⟩
    | some t =>
      have h1 := hall t hp
      obtain ⟨s1, w1, hs1, et, eb⟩ := hsome t hp
      have g := ((beginTable_cases s1 w1).1 (by rw [← et]; exact h1)).2
      rw [eb]
      exact ⟨g.2.1.trans hs1.2.1, g.2.2.1.trans hs1.2.2.1⟩
  · intro r hr
    obtain ⟨t, ht, h1, er⟩ := h1Read_some s w r hr
    obtain ⟨_, _, _, k3, k4⟩ := key t ht h1
    rw [er]
    exact ⟨k3, k4⟩

/-- C11, the code at the failing inputs: on a bus that fails only the 10-byte
humidity extension block read, `begin()` ends with error 0x40, the very code it
ends with on a bus that fails only the 24-byte primary block read; the other
failing steps end with 0x10 (identity read), 0x30 (reset write) and 0x80 (H1
read). -/
theorem begin_block_errors_coincide :
    (exSession.begin (shortBus 24)).1 = false ∧
    (exSession.begin (shortBus 24)).2.1.error = 0x40 ∧
    (exSession.begin (shortBus 24)).2.1.compensation = exTable ∧
    (exSession.begin (shortBus 10)).1 = false ∧
    (exSession.begin (shortBus 10)).2.1.error = 0x40 ∧
    (exSession.begin (shortBus 10)).2.1.compensation = List.replicate 24 0x60 ∧
    (exSession.begin (shortBus 10)).2.1.H1 = 0x60 ∧
    (exSession.begin (shortBus 1)).2.1.error = 0x10 ∧
    (exSession.begin (nackBus 0x60)).2.1.error = 0x30 ∧
    (exSession.begin h1FailBus).2.1.error = 0x80 := by
  decide

/-! ## Atomic load -/

/-- C12 (as amended): for every bus, if `begin()` returns failure then the
stored humidity table is identical to its value before the call; the primary
table and H1 are identical to their values before the call unless the 24-byte
primary block read of that run had succeeded; if it had, the primary table
holds the block that read delivered, and H1 is unchanged when the H1 read of
the run failed and holds the byte that read delivered when it succeeded (the
failure is then at the humidity extension block read). -/
theorem begin_failure_coefficients (s : Bme280) (w : TwoWire) (h : (s.begin w).1 = false) :
    (s.begin w).2.1.compH = s.compH ∧
    ((∀ t, s.primaryRead w = some t → t.1 = false) →
      (s.begin w).2.1.compensation = s.compensation ∧ (s.begin w).2.1.H1 = s.H1) ∧
    (∀ t, s.primaryRead w = some t → t.1 = true →
      s.begin w = Bme280.beginH1 { t.2.2.1 with compensation := t.2.1 } t.2.2.2 ∧
      (s.begin w).2.1.compensation = t.2.1) ∧
    (∀ r, s.h1Read w = some r →
      (r.1 = none → (s.begin w).2.1.H1 = s.H1) ∧
      (∀ b, r.1 = some b → (s.begin w).2.1.H1 = b)) :=
  begin_false_run s w h

theorem shortBus_begin : (exSession.begin (shortBus 10)).1 = false := by decide

theorem shortBus_primary :
    (exSession.begin (shortBus 24)).1 = false ∧
    (exSession.primaryRead (shortBus 24)).map (fun t => t.1) = some false ∧
    (exSession.primaryRead (shortBus 10)).map (fun t => (t.1, t.2.1)) =
      some (true, List.replicate 24 0x60) ∧
    (exSession.h1Read (shortBus 10)).map (fun r => r.1) = some (some 0x60) := by
  decide

theorem begin_failure_coefficients_witness :
    ((exSession.begin (shortBus 24)).1 = false ∧
      (∀ t, exSession.primaryRead (shortBus 24) = some t → t.1 = false) ∧
      (exSession.begin (shortBus 24)).2.1.compH = exSession.compH ∧
      (exSession.begin (shortBus 24)).2.1.compensation = exSession.compensation ∧
      (exSession.begin (shortBus 24)).2.1.H1 = exSession.H1) ∧
    ((exSession.begin (shortBus 10)).1 = false ∧
      (exSession.begin (shortBus 10)).2.1.compH = exSession.compH ∧
      (∃ t, exSession.primaryRead (shortBus 10) = some t ∧ t.1 = true ∧
        t.2.1 = List.replicate 24 0x60 ∧
        (exSession.begin (shortBus 10)).2.1.compensation = t.2.1) ∧
      (∃ r, exSession.h1Read (shortBus 10) = some r ∧ r.1 = some 0x60 ∧
        (exSession.begin (shortBus 10)).2.1.H1 = 0x60)) := by
  have g24 := begin_failure_coefficients exSession (shortBus 24) shortBus_primary.1
  have g10 := begin_failure_coefficients exSession (shortBus 10) shortBus_begin
  have p24 : ∀ t, exSession.primaryRead (shortBus 24) = some t → t.1 = false := by
    intro t ht
    have e := shortBus_primary.2.1
    rw [ht] at e
    exact Option.some.inj e
  refine ⟨⟨shortBus_primary.1, p24, g24.1, (g24.2.1 p24).1, (g24.2.1 p24).2⟩,
    shortBus_begin, g10.1, ?_, ?_⟩
  · cases hp : exSession.primaryRead (shortBus 10) with
    | none =>
      have e := shortBus_primary.2.2.1
      rw [hp] at e
      exact Option.noConfusion e
    | some t =>
      have e := shortBus_primary.2.2.1
      rw [hp] at e
      have e2 := Option.some.inj e
      have h1 : t.1 = true := congrArg Prod.fst e2
      have h2 : t.2.1 = List.replicate 24 0x60 := congrArg Prod.snd e2
      exact ⟨t, rfl, h1, h2, (g10.2.2.1 t hp h1).2⟩
  · cases hp : exSession.h1Read (shortBus 10) with
    | none =>
      have e := shortBus_primary.2.2.2
      rw [hp] at e
      exact Option.noConfusion e
    | some r =>
      have e := shortBus_primary.2.2.2
      rw [hp] at e
      have h1 : r.1 = some 0x60 := Option.some.inj e
      exact ⟨r, rfl, h1, (g10.2.2.2 r hp).2 0x60 h1⟩

/-- C12 as stated fails: on a bus that fails only the humidity extension block
read, `begin()` returns false although the primary table now holds the 24
bytes just read and H1 the byte just read (0x60 each). -/
theorem begin_failure_coefficients_counterexample :
    ¬ (∀ (s : Bme280) (w : TwoWire), (s.begin w).1 = false →
        (s.begin w).2.1.compensation = s.compensation ∧ (s.begin w).2.1.H1 = s.H1 ∧
        (s.begin w).2.1.compH = s.compH) := by
  intro hall
  have h := (hall exSession (shortBus 10) shortBus_begin).2.1
  have e : (exSession.begin (shortBus 10)).2.1.H1 = 0x60 := by decide
  rw [e] at h
  exact absurd h (by decide)

/-! ## Failure propagation -/

/-- C14, the code at the failing input: on a bus where the control register
read succeeds with 0x27 and every later `write()` is refused, the write of
`standby()` fails (its `sendByte` returns false and latches error 2) and yet
`standby()` returns true, while `measure()` and `continuous()` return false on
the same bus. -/
theorem standby_ignores_write_failure :
    (exSession.readByte (nackBus 0x27) BME280_REG_CTRL_MEAS).1 = some 0x27 ∧
    (exSession.sendByte (exSession.readByte (nackBus 0x27) BME280_REG_CTRL_MEAS).2.2
      BME280_REG_CTRL_MEAS (0x27 &&& 0xFC)).1 = false ∧
    (exSession.standby (nackBus 0x27)).1 = true ∧
    (exSession.standby (nackBus 0x27)).2.1.error = 2 ∧
    (exSession.measure (nackBus 0x27)).1 = false ∧
    (exSession.continuous (nackBus 0x27)).1 = false := by
  decide

/-! ## Sticky error -/

theorem readByte_sticky (s : Bme280) (w : TwoWire) (reg : Nat) (h : s.error ≠ 0) :
    (s.readByte w reg).2.1.error ≠ 0 := by
  unfold Bme280.readByte
  dsimp only
  split_ifs
  · exact (by decide : BME280_ERROR_I2C_WRITE ≠ 0)
  · exact (by decide : BME280_ERROR_I2C_READ ≠ 0)
  · exact h

theorem sendByte_sticky (s : Bme280) (w : TwoWire) (reg data : Nat) (h : s.error ≠ 0) :
    (s.sendByte w reg data).2.1.error ≠ 0 := by
  unfold Bme280.sendByte
  dsimp only
  split_ifs
  all_goals first
    | exact h
    | exact (by decide : BME280_ERROR_I2C_WRITE ≠ 0)

theorem readTable_sticky (s : Bme280) (w : TwoWire) (reg len : Nat) (data : List Nat)
    (h : s.error ≠ 0) : (s.readTable w reg len data).2.2.1.error ≠ 0 := by
  unfold Bme280.readTable
  dsimp only
  split_ifs
  all_goals first
    | exact h
    | exact (by decide : BME280_ERROR_I2C_WRITE ≠ 0)
    | exact (by decide : BME280_ERROR_I2C_READ ≠ 0)

theorem beginHumid_sticky (s : Bme280) (w : TwoWire) (h : s.error ≠ 0) :
    (s.beginHumid w).2.1.error ≠ 0 := by
  have ht := readTable_sticky s w BME280_REG_COMP_H2_MSB sizeofCompHumid s.compH h
  unfold Bme280.beginHumid
  dsimp only
  split_ifs
  · exact (by decide : BME280_ERROR_NO_TABLE ≠ 0)
  · exact ht

theorem beginH1_sticky (s : Bme280) (w : TwoWire) (h : s.error ≠ 0) :
    (s.beginH1 w).2.1.error ≠ 0 := by
  have hr := readByte_sticky s w BME280_REG_COMP_H1 h
  unfold Bme280.beginH1
  generalize s.readByte w BME280_REG_COMP_H1 = rb at hr ⊢
  obtain ⟨o, s1, w1⟩ := rb
  cases o with
  | none => exact (by decide : BME280_ERROR_NO_TABLE_HUMIDITY ≠ 0)
  | some b => exact beginHumid_sticky _ _ hr

theorem beginTable_sticky (s : Bme280) (w : TwoWire) (h : s.error ≠ 0) :
    (s.beginTable w).2.1.error ≠ 0 := by
  have ht := readTable_sticky s w BME280_REG_COMP_TABLE sizeofCompData s.compensation h
  unfold Bme280.beginTable
  dsimp only
  split_ifs
  · exact (by decide : BME280_ERROR_NO_TABLE ≠ 0)
  · exact beginH1_sticky _ _ ht

theorem beginReset_sticky (s : Bme280) (w : TwoWire) (h : s.error ≠ 0) :
    (s.beginReset w).2.1.error ≠ 0 := by
  have hs := sendByte_sticky s w BME280_REG_RESET 0xB6 h
  unfold Bme280.beginReset
  dsimp only
  split_ifs
  · exact (by decide : BME280_ERROR_NO_RESET ≠ 0)
  · exact beginTable_sticky _ _ hs

theorem begin_sticky (s : Bme280) (w : TwoWire) (h : s.error ≠ 0) :
    (s.begin w).2.1.error ≠ 0 := by
  have hr := readByte_sticky s (w.call WireCall.status).2 BME280_REG_ID h
  unfold Bme280.begin
  dsimp only
  split
  · exact (by decide : BME280_ERROR_I2C_READ ≠ 0)
  · generalize s.readByte (w.call WireCall.status).2 BME280_REG_ID = rb at hr ⊢
    obtain ⟨o, s1, w1⟩ := rb
    cases o with
    | none => exact (by decide : BME280_ERROR_NO_ANSWER ≠ 0)
    | some b =>
      dsimp only
      split
      · exact beginReset_sticky _ _ hr
      · exact (by decide : BME280_ERROR_NO_ID ≠ 0)

theorem configure_sticky (s : Bme280) (w : TwoWire) (a b c : Nat) (h : s.error ≠ 0) :
    (s.configure w a b c).2.1.error ≠ 0 := by
  have h1 := sendByte_sticky s w BME280_REG_CTRL_HUMI a h
  have h2 := sendByte_sticky _ (s.sendByte w BME280_REG_CTRL_HUMI a).2.2 BME280_REG_CONFIG c h1
  have h3 := sendByte_sticky _
    ((s.sendByte w BME280_REG_CTRL_HUMI a).2.1.sendByte (s.sendByte w BME280_REG_CTRL_HUMI a).2.2
      BME280_REG_CONFIG c).2.2 BME280_REG_CTRL_MEAS b h2
  unfold Bme280.configure
  dsimp only
  split_ifs
  · exact (by decide : BME280_ERROR_I2C_WRITE ≠ 0)
  · exact (by decide : BME280_ERROR_I2C_WRITE ≠ 0)
  · exact (by decide : BME280_ERROR_I2C_WRITE ≠ 0)
  · exact h3

theorem standby_sticky (s : Bme280) (w : TwoWire) (h : s.error ≠ 0) :
    (s.standby w).2.1.error ≠ 0 := by
  have hr := readByte_sticky s w BME280_REG_CTRL_MEAS h
  unfold Bme280.standby
  generalize s.readByte w BME280_REG_CTRL_MEAS = rb at hr ⊢
  obtain ⟨o, s1, w1⟩ := rb
  cases o with
  | none => exact (by decide : BME280_ERROR_I2C_READ ≠ 0)
  | some b => exact sendByte_sticky _ _ _ _ hr

theorem measure_sticky (s : Bme280) (w : TwoWire) (h : s.error ≠ 0) :
    (s.measure w).2.1.error ≠ 0 := by
  have hr := readByte_sticky s w BME280_REG_CTRL_MEAS h
  unfold Bme280.measure
  generalize s.readByte w BME280_REG_CTRL_MEAS = rb at hr ⊢
  obtain ⟨o, s1, w1⟩ := rb
  cases o with
  | none => exact (by decide : BME280_ERROR_I2C_READ ≠ 0)
  | some b =>
    dsimp only
    split
    · exact (by decide : BME280_ERROR_I2C_WRITE ≠ 0)
    · exact sendByte_sticky _ _ _ _ hr

theorem continuous_sticky (s : Bme280) (w : TwoWire) (h : s.error ≠ 0) :
    (s.continuous w).2.1.error ≠ 0 := by
  have hr := readByte_sticky s w BME280_REG_CTRL_MEAS h
  unfold Bme280.continuous
  generalize s.readByte w BME280_REG_CTRL_MEAS = rb at hr ⊢
  obtain ⟨o, s1, w1⟩ := rb
  cases o with
  | none => exact (by decide : BME280_ERROR_I2C_READ ≠ 0)
  | some b =>
    dsimp only
    split
    · exact (by decide : BME280_ERROR_I2C_WRITE ≠ 0)
    · exact sendByte_sticky _ _ _ _ hr

theorem read_sticky (s : Bme280) (w : TwoWire) (h : s.error ≠ 0) :
    ∃ r, s.read w = some r ∧ r.2.1.error ≠ 0 := by
  have ht := readTable_sticky s w BME280_REG_PRES_MSB 8 (List.replicate 8 0) h
  unfold Bme280.read
  generalize s.readTable w BME280_REG_PRES_MSB 8 (List.replicate 8 0) = t at ht ⊢
  obtain ⟨b, d, s1, w1⟩ := t
  cases b
  · exact ⟨(false, s1, w1), by simp, ht⟩
  · obtain ⟨p, r, _, hc, _, _, _, he, _⟩ := convert_total s1 d
    refine ⟨(true, r, w1), by simp [hc], ?_⟩
    dsimp only
    rw [he]
    exact ht

theorem perform_sticky (s : Bme280) (w : TwoWire) (op : PublicOp) (h : s.error ≠ 0) :
    ∃ r, s.perform w op = some r ∧ r.2.1.error ≠ 0 := by
  cases op with
  | begin => exact ⟨_, rfl, begin_sticky s w h⟩
  | configure a b c => exact ⟨_, rfl, configure_sticky s w a b c h⟩
  | standby => exact ⟨_, rfl, standby_sticky s w h⟩
  | measure => exact ⟨_, rfl, measure_sticky s w h⟩
  | continuous => exact ⟨_, rfl, continuous_sticky s w h⟩
  | read => exact read_sticky s w h
  | ready =>
    refine ⟨_, rfl, ?_⟩
    rw [ready_latched s w h]
    exact h

theorem runOps_sticky (ops : List PublicOp) : ∀ (s : Bme280) (w : TwoWire), s.error ≠ 0 →
    ∃ s1 w1, s.runOps w ops = some (s1, w1) ∧ s1.error ≠ 0 := by
  induction ops with
  | nil => intro s w h; exact ⟨s, w, rfl, h⟩
  | cons op ops ih =>
    intro s w h
    obtain ⟨r, hr, he⟩ := perform_sticky s w op h
    obtain ⟨s1, w1, h1, h2⟩ := ih r.2.1 r.2.2 he
    refine ⟨s1, w1, ?_, h2⟩
    simp only [Bme280.runOps, hr]
    exact h1

/-- C17: no public operation, on any bus, changes the error field from a
nonzero code to none; so after any sequence of public calls from a state with
an error latched the error field is still nonzero, and `ready()` returns false
there on every bus. -/
theorem sticky_error (s : Bme280) (w : TwoWire) (h : s.error ≠ 0) :
    (∀ op, ∃ r, s.perform w op = some r ∧ r.2.1.error ≠ 0) ∧
    (∀ ops, ∃ s1 w1, s.runOps w ops = some (s1, w1) ∧ s1.error ≠ 0 ∧
      ∀ w2, (s1.ready w2).1 = false) := by
  refine ⟨fun op => perform_sticky s w op h, ?_⟩
  intro ops
  obtain ⟨s1, w1, h1, h2⟩ := runOps_sticky ops s w h
  refine ⟨s1, w1, h1, h2, ?_⟩
  intro w2
  rw [ready_latched s1 w2 h2]

theorem sticky_error_witness :
    latchedSession.error ≠ 0 ∧
    (∀ op, ∃ r, latchedSession.perform goodBus op = some r ∧ r.2.1.error ≠ 0) ∧
    (∀ ops, ∃ s1 w1, latchedSession.runOps goodBus ops = some (s1, w1) ∧ s1.error ≠ 0 ∧
      ∀ w2, (s1.ready w2).1 = false) :=
  ⟨by decide, sticky_error latchedSession goodBus (by decide)⟩

/-! ## Overflow in the temperature stage -/

theorem wrap32_eq (x : Int) (h : inInt32 x) : wrap32 x = x := by
  unfold inInt32 at h
  unfold wrap32
  omega

theorem asr_eq_div (x : Int) :
    asr x 3 = x / 8 ∧ asr x 4 = x / 16 ∧ asr x 8 = x / 256 ∧ asr x 11 = x / 2048 ∧
    asr x 12 = x / 4096 ∧ asr x 14 = x / 16384 := by
  unfold asr
  refine ⟨?_, ?_, ?_, ?_, ?_, ?_⟩ <;> (rw [Int.shiftRight_eq_div_pow]; norm_num)

theorem edge_overflow :
    ¬ inInt32 ((asr 1048575 3 - ((edgeCoefficients.T1 : Nat) : Int) * 2) *
        edgeCoefficients.T2) ∧
    t_fine edgeCoefficients 1048575 = -80 ∧
    t_fine_unbounded edgeCoefficients 1048575 = 2097072 := by
  refine ⟨?_, ?_, ?_⟩
  · unfold inInt32; decide
  · decide
  · decide

theorem temperature_stage_steps (T1 : Nat) (T2 T3 temp : Int)
    (ht0 : 0 ≤ temp) (ht1 : temp < 1048576) (hT1 : T1 ≤ 65535)
    (hp1 : inInt32 ((asr temp 3 - (T1 : Int) * 2) * T2))
    (hp2 : inInt32 ((asr temp 4 - (T1 : Int)) * (asr temp 4 - (T1 : Int))))
    (hp3 : inInt32 (asr ((asr temp 4 - (T1 : Int)) * (asr temp 4 - (T1 : Int))) 12 * T3)) :
    shl32 T1 1 = (T1 : Int) * 2 ∧
    sub32 (asr temp 3) ((T1 : Int) * 2) = asr temp 3 - (T1 : Int) * 2 ∧
    mul32 (asr temp 3 - (T1 : Int) * 2) T2 = (asr temp 3 - (T1 : Int) * 2) * T2 ∧
    sub32 (asr temp 4) T1 = asr temp 4 - (T1 : Int) ∧
    mul32 (asr temp 4 - (T1 : Int)) (asr temp 4 - (T1 : Int)) =
      (asr temp 4 - (T1 : Int)) * (asr temp 4 - (T1 : Int)) ∧
    mul32 (asr ((asr temp 4 - (T1 : Int)) * (asr temp 4 - (T1 : Int))) 12) T3 =
      asr ((asr temp 4 - (T1 : Int)) * (asr temp 4 - (T1 : Int))) 12 * T3 ∧
    inInt32 (asr temp 3) ∧ inInt32 (asr temp 4) ∧ inInt32 ((T1 : Int) * 2) ∧
    inInt32 (asr temp 3 - (T1 : Int) * 2) ∧ inInt32 (asr temp 4 - (T1 : Int)) := by
  have h3 : asr temp 3 = temp / 8 := (asr_eq_div temp).1
  have h4 : asr temp 4 = temp / 16 := (asr_eq_div temp).2.1
  have r3 : inInt32 (asr temp 3) := by unfold inInt32; omega
  have r4 : inInt32 (asr temp 4) := by unfold inInt32; omega
  have rT : inInt32 ((T1 : Int) * 2) := by unfold inInt32; omega
  have rd1 : inInt32 (asr temp 3 - (T1 : Int) * 2) := by unfold inInt32; omega
  have rd2 : inInt32 (asr temp 4 - (T1 : Int)) := by unfold inInt32; omega
  refine ⟨?_, wrap32_eq _ rd1, wrap32_eq _ hp1, wrap32_eq _ rd2, wrap32_eq _ hp2,
    wrap32_eq _ hp3, r3, r4, rT, rd1, rd2⟩
  unfold shl32
  rw [pow_one]
  exact wrap32_eq _ rT

theorem temperature_sum_steps (p1 p3 : Int) (h1 : inInt32 p1) (h3 : inInt32 p3) :
    add32 (asr p1 11) (asr p3 14) = asr p1 11 + asr p3 14 ∧
    mul32 (asr p1 11 + asr p3 14) 5 = (asr p1 11 + asr p3 14) * 5 ∧
    add32 ((asr p1 11 + asr p3 14) * 5) 128 = (asr p1 11 + asr p3 14) * 5 + 128 ∧
    inInt32 (asr p1 11 + asr p3 14) ∧ inInt32 ((asr p1 11 + asr p3 14) * 5) ∧
    inInt32 ((asr p1 11 + asr p3 14) * 5 + 128) := by
  have e1 : asr p1 11 = p1 / 2048 := (asr_eq_div p1).2.2.2.1
  have e3 : asr p3 14 = p3 / 16384 := (asr_eq_div p3).2.2.2.2.2
  unfold inInt32 at h1 h3
  have ra : inInt32 (asr p1 11 + asr p3 14) := by unfold inInt32; omega
  have rb : inInt32 ((asr p1 11 + asr p3 14) * 5) := by unfold inInt32; omega
  have rc : inInt32 ((asr p1 11 + asr p3 14) * 5 + 128) := by unfold inInt32; omega
  exact ⟨wrap32_eq _ ra, wrap32_eq _ rb, wrap32_eq _ rc, ra, rb, rc⟩

/-- C19 (as amended): for every raw temperature in `[0, 2^20)`, T1 in
`[0, 65535]` and T2, T3 in `[-32768, 32767]`, provided the three products
`((temp>>3) - (T1<<1)) * T2`, `((temp>>4) - T1)^2` and
`(((temp>>4) - T1)^2 >> 12) * T3` lie within the signed 32-bit range, every other
intermediate of `var1`, `var2`, `t_fine` and `t_fine*5+128` does too, and the
32-bit results equal the same formulas over unbounded integers. -/
theorem temperature_no_overflow (c : compData_t) (temp : Int)
    (ht0 : 0 ≤ temp) (ht1 : temp < 2 ^ 20) (hT1 : c.T1 ≤ 65535)
    (_hT2 : -32768 ≤ c.T2 ∧ c.T2 ≤ 32767) (_hT3 : -32768 ≤ c.T3 ∧ c.T3 ≤ 32767)
    (hp1 : inInt32 ((asr temp 3 - (c.T1 : Int) * 2) * c.T2))
    (hp2 : inInt32 ((asr temp 4 - (c.T1 : Int)) * (asr temp 4 - (c.T1 : Int))))
    (hp3 : inInt32
      (asr ((asr temp 4 - (c.T1 : Int)) * (asr temp 4 - (c.T1 : Int))) 12 * c.T3)) :
    inInt32 (asr temp 3) ∧ inInt32 (asr temp 4) ∧ inInt32 ((c.T1 : Int) * 2) ∧
    inInt32 (asr temp 3 - (c.T1 : Int) * 2) ∧ inInt32 (asr temp 4 - (c.T1 : Int)) ∧
    inInt32 (tempVar1_unbounded c temp) ∧ inInt32 (tempVar2_unbounded c temp) ∧
    inInt32 (t_fine_unbounded c temp) ∧ inInt32 (t_fine_unbounded c temp * 5) ∧
    inInt32 (t_fine_unbounded c temp * 5 + 128) ∧
    tempVar1 c temp = tempVar1_unbounded c temp ∧
    tempVar2 c temp = tempVar2_unbounded c temp ∧
    t_fine c temp = t_fine_unbounded c temp ∧
    temperatureNum (t_fine c temp) = temperatureNum_unbounded (t_fine_unbounded c temp) := by
  obtain ⟨s1, s2, s3, s4, s5, s6, r3, r4, rT, rd1, rd2⟩ :=
    temperature_stage_steps c.T1 c.T2 c.T3 temp ht0 (by norm_num at ht1; exact ht1) hT1
      hp1 hp2 hp3
  obtain ⟨a1, a2, a3, ra, rb, rc⟩ := temperature_sum_steps _ _ hp1 hp3
  have v1 : tempVar1 c temp = tempVar1_unbounded c temp := by
    unfold tempVar1 tempVar1_unbounded
    rw [s1, s2, s3]
  have v2 : tempVar2 c temp = tempVar2_unbounded c temp := by
    unfold tempVar2 tempVar2_unbounded
    rw [s4, s5, s6]
  have tf : t_fine c temp = t_fine_unbounded c temp := by
    unfold t_fine t_fine_unbounded
    rw [v1, v2]
    exact a1
  have e1 : asr ((asr temp 3 - (c.T1 : Int) * 2) * c.T2) 11 = tempVar1_unbounded c temp := rfl
  have e2 : asr (asr ((asr temp 4 - (c.T1 : Int)) * (asr temp 4 - (c.T1 : Int))) 12 * c.T3) 14 =
      tempVar2_unbounded c temp := rfl
  have rv1 : inInt32 (tempVar1_unbounded c temp) := by
    have h := (asr_eq_div ((asr temp 3 - (c.T1 : Int) * 2) * c.T2)).2.2.2.1
    rw [← e1, h]
    unfold inInt32 at hp1 ⊢
    omega
  have rv2 : inInt32 (tempVar2_unbounded c temp) := by
    have h := (asr_eq_div
      (asr ((asr temp 4 - (c.T1 : Int)) * (asr temp 4 - (c.T1 : Int))) 12 * c.T3)).2.2.2.2.2
    rw [← e2, h]
    unfold inInt32 at hp3 ⊢
    omega
  rw [e1, e2] at a1 a2 a3 ra rb rc
  refine ⟨r3, r4, rT, rd1, rd2, rv1, rv2, ra, rb, rc, v1, v2, tf, ?_⟩
  unfold temperatureNum temperatureNum_unbounded
  rw [tf]
  unfold t_fine_unbounded
  rw [a2, a3]

theorem exTable_products :
    inInt32 ((asr 519888 3 - ((compTable_var exTable).T1 : Int) * 2) *
      (compTable_var exTable).T2) ∧
    inInt32 ((asr 519888 4 - ((compTable_var exTable).T1 : Int)) *
      (asr 519888 4 - ((compTable_var exTable).T1 : Int))) ∧
    inInt32 (asr ((asr 519888 4 - ((compTable_var exTable).T1 : Int)) *
      (asr 519888 4 - ((compTable_var exTable).T1 : Int))) 12 * (compTable_var exTable).T3) := by
  rw [exTable_var]
  unfold inInt32
  decide

theorem temperature_no_overflow_witness :
    (compTable_var exTable).T1 ≤ 65535 ∧
    inInt32 ((asr 519888 3 - ((compTable_var exTable).T1 : Int) * 2) *
      (compTable_var exTable).T2) ∧
    t_fine (compTable_var exTable) 519888 = t_fine_unbounded (compTable_var exTable) 519888 ∧
    temperatureNum (t_fine (compTable_var exTable) 519888) =
      temperatureNum_unbounded (t_fine_unbounded (compTable_var exTable) 519888) :=
  have g := temperature_no_overflow (compTable_var exTable) 519888 (by decide) (by decide)
    (by rw [exTable_var]; decide) (by rw [exTable_var]; decide) (by rw [exTable_var]; decide)
    exTable_products.1 exTable_products.2.1 exTable_products.2.2
  ⟨by rw [exTable_var]; decide, exTable_products.1, g.2.2.2.2.2.2.2.2.2.2.2.2.1,
    g.2.2.2.2.2.2.2.2.2.2.2.2.2⟩

/-- C19 as stated fails: with raw temperature `2^20 - 1`, T1 = 0, T2 = 32767 and
T3 = 0 the product `((temp>>3) - (T1<<1)) * T2 = 131071 * 32767` exceeds the
signed 32-bit range, and the 32-bit `t_fine` is -80 where the formula over
unbounded integers gives 2097072. -/
theorem temperature_no_overflow_counterexample :
    ¬ (∀ (c : compData_t) (temp : Int), 0 ≤ temp → temp < 2 ^ 20 → c.T1 ≤ 65535 →
        (-32768 ≤ c.T2 ∧ c.T2 ≤ 32767) → (-32768 ≤ c.T3 ∧ c.T3 ≤ 32767) →
        inInt32 ((asr temp 3 - (c.T1 : Int) * 2) * c.T2) ∧
        t_fine c temp = t_fine_unbounded c temp) := by
  intro hall
  have h := (hall edgeCoefficients 1048575 (by decide) (by decide) (by decide) (by decide)
    (by decide)).2
  rw [edge_overflow.2.1, edge_overflow.2.2] at h
  exact absurd h (by decide)
